import Mathlib

/-!
# tuiser: a shallow embedding of `tuiser.c`

The program is a single C file: a curses front end for one serial device.
The embedding keeps the names of the source.

* The mutable globals are the fields of `Session`; the locals of `main` that
  live across iterations of the `while (1)` loop are the fields of `MainState`.
* The answers of the operating system and of curses that the code branches on
  (does `open` succeed, is the descriptor a terminal, the text of
  `strerror(errno)`, the bytes a `read` returns, the cursor `getyx` reports)
  are the fields of `Env`, one record per call of a top-level operation or per
  iteration of the main loop.  The descriptors the process holds are tracked in
  `Session.open_fds`.
* The screen is recorded as the cells of the error row and of the status row
  of `stdscr` (one character per column, or `none` where the model does not
  follow what reaches the row), as the list of output calls on the data region
  of `stdscr`, and as the `mvwprintw` calls on the grid surface `data_win`
  together with those of them that print.  curses refuses to move the cursor
  to a cell outside the screen or the window and then prints nothing; text
  that reaches the right edge continues on the next row.
* `int`, `unsigned` and `size_t` conversions are explicit (`to_int`, `u32`,
  `u64`) where the source mixes them; `char` is signed.  The `double`
  arithmetic of graph mode is exact rational arithmetic.
* The constants of `<termios.h>` are a parameter (`B`, from the numeric rate to
  the value of the macro); the key codes are those of `<ncurses.h>`.
* Allocation (`safe_malloc`) is taken to succeed; the option loop of `main` is
  not embedded, the main loop starts from any session it may leave.
-/

namespace Tuiser

/-! ## Enumerations and constants (lines 10-129) -/

/-- The C enum `Selection`: which input box has the focus. -/
inductive Selection where
  | FD
  | BAUD
  | SEND
deriving DecidableEq, Repr

/-- The C enum `Mode`: how incoming bytes are displayed. -/
inductive Mode where
  | CHAR
  | GRAPH
  | HEX
  | UINT
  | INT
deriving DecidableEq, Repr

/-- Numeric value of a `Mode` enumerator. -/
def Mode.toNat : Mode → Nat
  | .CHAR => 0
  | .GRAPH => 1
  | .HEX => 2
  | .UINT => 3
  | .INT => 4

/-- Numeric value of a `Selection` enumerator. -/
def Selection.toNat : Selection → Nat
  | .FD => 0
  | .BAUD => 1
  | .SEND => 2

def NUM_MODES : Nat := 5

def NO_FD_PLACEHOLDER : String := "<none>"
def FD_FAIL_MSG : String := "Can't access device: "
def BAD_BAUD_MSG : String :=
  "Bad baudrate; check `man 3 termios` for a full list of baudrates"
def BAUD_SET_FAIL_MSG : String := "Can't set baud: "
def SEND_NO_FD_MSG : String := "No device open for I/O"
def TERMINAL_TOO_SMALL_MSG : String := "Terminal too small, use another mode"
def STATUS_MSG : List String := ["Device: ", ", baud: ", ", monitor mode: "]
def STATUS_OFF_MSG : String := " (off)"
def INPUT_MSG : List String := ["Dev. path: ", "Baud: ", "Send: "]

/-- The table `STATUS_MODE_MSG`, indexed by the mode. -/
def STATUS_MODE_MSG : Mode → String
  | .CHAR => "char"
  | .GRAPH => "graph"
  | .HEX => "hex"
  | .UINT => "uint"
  | .INT => "int"

def FAIL_MSG_ROW : Int := 9
def STATUS_MSG_ROW : Int := 10
def DATA_START_ROW : Int := 12
def INPUT_PADDING : Int := 2

/-- The table `DATA_WIN_SIZE`, indexed by `global_mode - 2`. -/
def DATA_WIN_SIZE : List Int := [51, 67, 83]

/-- The table `DATA_NUM_WIDTH`, indexed by `global_mode - 2`. -/
def DATA_NUM_WIDTH : List Int := [3, 4, 5]

def MIN_GRAPH_ROWS : Int := 5

/-- The table `BAUD_MAP`: numeric rate paired with the value of the macro
`B<rate>` of `<termios.h>`.  The header is not part of the repository, so the
macro values are the parameter `B` (rate to constant). -/
def BAUD_MAP (B : Int → Int) : List (Int × Int) :=
  [ (50, B 50), (75, B 75), (110, B 110), (134, B 134), (150, B 150),
    (200, B 200), (300, B 300), (600, B 600), (1200, B 1200), (1800, B 1800),
    (2400, B 2400), (4800, B 4800), (9600, B 9600), (19200, B 19200),
    (38400, B 38400), (57600, B 57600), (115200, B 115200),
    (230400, B 230400), (460800, B 460800), (500000, B 500000),
    (576000, B 576000), (921600, B 921600), (1000000, B 1000000),
    (1152000, B 1152000), (1500000, B 1500000), (2000000, B 2000000) ]

def BAUD_MAP_LEN : Nat := 26

/-- The values the `B<rate>` macros have on Linux (`asm-generic/termbits.h`):
`B50 .. B38400` are `1 .. 15`, the higher rates are `0o10001 .. 0o10013`.
Used only to instantiate the parameter `B` at a concrete platform. -/
def linux_B (r : Int) : Int :=
  if r = 50 then 1 else if r = 75 then 2 else if r = 110 then 3
  else if r = 134 then 4 else if r = 150 then 5 else if r = 200 then 6
  else if r = 300 then 7 else if r = 600 then 8 else if r = 1200 then 9
  else if r = 1800 then 10 else if r = 2400 then 11 else if r = 4800 then 12
  else if r = 9600 then 13 else if r = 19200 then 14 else if r = 38400 then 15
  else if r = 57600 then 4097 else if r = 115200 then 4098
  else if r = 230400 then 4099 else if r = 460800 then 4100
  else if r = 500000 then 4101 else if r = 576000 then 4102
  else if r = 921600 then 4103 else if r = 1000000 then 4104
  else if r = 1152000 then 4105 else if r = 1500000 then 4106
  else if r = 2000000 then 4107 else 0

/-! ## Integer conversions and the terminal size -/

/-- Conversion to `unsigned int` (32 bits). -/
def u32 (x : Int) : Int := x % 4294967296

/-- Conversion to `size_t` (64 bits). -/
def u64 (x : Int) : Int := x % 18446744073709551616

/-- Conversion to `int` (32 bits, two's complement). -/
def to_int (x : Int) : Int :=
  if u32 x < 2147483648 then u32 x else u32 x - 4294967296

/-- The terminal size `getmaxyx` reports (`LINES` and `COLS` of curses); it
is taken to stay the same while the program runs. -/
structure Geom where
  ROWS : Int
  COLS : Int
deriving DecidableEq, Repr

/-! ## Session state and the environment -/

/-- The parts of `struct termios` the program touches.  The speeds are what
`cfsetispeed` / `cfsetospeed` store and `cfgetospeed` returns. -/
structure termios where
  c_iflag : Nat
  c_cflag : Nat
  c_ispeed : Int
  c_ospeed : Int
deriving DecidableEq, Repr

/-- The mutable globals of the program, the two message rows of the screen,
and the descriptors the process has opened and not yet closed.  A message row
is `some cells` when the model knows the cells of the row (one character per
column) and `none` when it does not track them. -/
structure Session where
  global_config : termios
  global_monitoring : Bool
  global_mode : Mode
  global_fd : Int
  global_fd_name : String
  fail_row : Option (List Char)
  status_row : Option (List Char)
  open_fds : List Int
deriving DecidableEq, Repr

/-- Answers of the operating system and of curses during one operation.
`read_res = none` is a failed `read`, `some bs` the bytes it delivered;
`strerror` is the text of `strerror(errno)` when the code asks for it;
`getyx` is the cursor curses reports after char-mode output. -/
structure Env where
  open_ok : Bool
  isatty_ok : Bool
  tcsetattr_ok : Bool
  cfsetispeed_ok : Bool
  cfsetospeed_ok : Bool
  write_ok : Bool
  read_res : Option (List Nat)
  getyx : Int × Int
  strerror : String
deriving DecidableEq, Repr

/-- Search for the lowest descriptor number from `n` upwards that is not in
`fds`; `fuel` bounds the search. -/
def lowest_free (fds : List Int) : Nat → Int → Int
  | 0, n => n
  | fuel + 1, n => if n ∈ fds then lowest_free fds fuel (n + 1) else n

/-- The call `open(global_fd_name, O_RDWR)`: `-1` on failure, otherwise the lowest
descriptor above the standard streams that the process does not hold. -/
def os_open (env : Env) (fds : List Int) : Int :=
  if env.open_ok then lowest_free fds fds.length 3 else -1

/-- The call `isatty(fd)`: false on an invalid descriptor. -/
def isatty (env : Env) (fd : Int) : Bool :=
  decide (0 ≤ fd) && env.isatty_ok

/-! ## The message rows of `stdscr`

curses refuses a `move` (and so a `mvprintw`) whose target is not a cell of
the screen: the call returns `ERR`, prints nothing and leaves the cursor where
it was.  Text that reaches the right edge continues on the next row. -/

/-- The curses call `move(y, x)` succeeds: the target is a cell of the screen. -/
def move_ok (g : Geom) (y x : Int) : Bool :=
  decide (0 ≤ y) && decide (y < g.ROWS) && decide (0 ≤ x) && decide (x < g.COLS)

/-- The cells of a blank row. -/
def blank_row (g : Geom) : List Char :=
  List.replicate g.COLS.toNat ' '

/-- A row after text has been written on it from column `x`: the cells before
`x` and after the text are kept, the text is cut at the right edge. -/
def overlay (row : List Char) (x : Nat) (t : List Char) : List Char :=
  row.take x ++ t.take (row.length - x) ++ row.drop (x + t.length)

/-- Every character of the text is printable ASCII (`0x20 .. 0x7E`), so that
curses puts it in one cell and moves one column to the right. -/
def printable (t : String) : Bool :=
  t.toList.all (fun c => decide (0x20 ≤ c.toNat) && decide (c.toNat ≤ 0x7E))

/-- The centring column `(COLS - len + 1) / 2` of the source, computed in
`size_t` and passed to curses as an `int`. -/
def centre (g : Geom) (len : Nat) : Int :=
  to_int (u64 (g.COLS - (len : Int) + 1) / 2)

/-- The model stops tracking both message rows. -/
def untracked (s : Session) : Session :=
  { s with fail_row := none, status_row := none }

/-- The calls `move(FAIL_MSG_ROW, 0); clrtoeol();`.  When the move fails the
line is cleared from wherever the cursor is, which the model does not track. -/
def clear_fail_row (g : Geom) (s : Session) : Session :=
  if move_ok g FAIL_MSG_ROW 0 then { s with fail_row := some (blank_row g) }
  else untracked s

/-- The call `mvprintw(FAIL_MSG_ROW, x, ..., text)`.  Nothing is printed when
the move fails.  Text that does not fit on the row continues on the status
row, which is then no longer tracked (and neither is the error row when it is
the last line of the screen); text with other than printable characters is
not tracked. -/
def mvprintw_fail (g : Geom) (x : Int) (text : String) (s : Session) : Session :=
  if !printable text then untracked s
  else if !move_ok g FAIL_MSG_ROW x then s
  else if (text.length : Int) ≤ g.COLS - x then
    { s with fail_row := s.fail_row.map (fun r => overlay r x.toNat text.toList) }
  else if move_ok g STATUS_MSG_ROW 0 then
    { s with fail_row := s.fail_row.map (fun r => overlay r x.toNat text.toList),
             status_row := none }
  else untracked s

/-- The macro `PRINT_ERR(str)` (lines 12-16): clear the error row, then print
`str` at the centring column. -/
def PRINT_ERR (g : Geom) (str : String) (s : Session) : Session :=
  mvprintw_fail g (centre g str.length) str (clear_fail_row g s)

/-! ## `print_status` (lines 162-198) -/

/-- The first loop of `print_status`: index of the first table row whose
constant equals the configured output speed, `0` when there is none. -/
def status_index (B : Int → Int) (current : Int) : Nat :=
  ((BAUD_MAP B).findIdx? (fun e => e.2 == current)).getD 0

/-- The call `snprintf(baud, 8, "%i", BAUD_MAP[index][0])`: the decimal text,
cut to the seven characters the buffer holds. -/
def status_baud (B : Int → Int) (cfg : termios) : String :=
  (toString ((BAUD_MAP B).getD (status_index B cfg.c_ospeed) (0, 0)).1).take 7

/-- The text of the `mvprintw` call of `print_status` (lines 188-194). -/
def status_main (B : Int → Int) (s : Session) : String :=
  STATUS_MSG.getD 0 "" ++ s.global_fd_name ++ STATUS_MSG.getD 1 "" ++
  status_baud B s.global_config ++ STATUS_MSG.getD 2 "" ++
  STATUS_MODE_MSG s.global_mode

/-- The text of the `printw` call of `print_status` (line 196), empty when
the call is not made. -/
def status_off (s : Session) : String :=
  if s.global_monitoring then "" else STATUS_OFF_MSG

/-- The cells of the status row after `print_status` on a screen that has
the row (lines 163-196): the row is cleared, the main text is printed at the
centring column of the whole status text, and ` (off)` is printed at the
cursor.  When the `mvprintw` fails the cursor is still at column 0 of the row,
so only ` (off)` reaches the row.  Text that does not fit continues on the
next row; the row is not tracked (`none`) when it is the last line of the
screen and the text does not fit, or when the text has other than printable
characters. -/
def status_cells (g : Geom) (B : Int → Int) (s : Session) : Option (List Char) :=
  if !printable (status_main B s) then none
  else
    let x := centre g ((status_main B s).length + (status_off s).length)
    let start := if move_ok g STATUS_MSG_ROW x then x else 0
    let text := if move_ok g STATUS_MSG_ROW x then status_main B s ++ status_off s
                else status_off s
    if (text.length : Int) ≤ g.COLS - start ∨ move_ok g (STATUS_MSG_ROW + 1) 0 then
      some (overlay (blank_row g) start.toNat text.toList)
    else none

/-- The function `print_status`.  When the first `move` fails, everything
acts wherever the cursor is, and the message rows are no longer tracked. -/
def print_status (g : Geom) (B : Int → Int) (s : Session) : Session :=
  if !move_ok g STATUS_MSG_ROW 0 then untracked s
  else { s with status_row := status_cells g B s }

/-! ## `fd_err`, `try_update_fd`, `try_set_baud` (lines 200-281) -/

/-- The function `fd_err`: forget the handle (no `close`), show the failure,
reset the display name to the placeholder, redraw the status. -/
def fd_err (g : Geom) (B : Int → Int) (env : Env) (s : Session) : Session :=
  let s := { s with global_fd := -1 }
  let s := clear_fail_row g s
  let s := mvprintw_fail g (centre g (FD_FAIL_MSG.length + env.strerror.length))
    (FD_FAIL_MSG ++ env.strerror) s
  let s := { s with global_fd_name := NO_FD_PLACEHOLDER }
  print_status g B s

/-- The label `reopen:` of `try_update_fd`. -/
def reopen (g : Geom) (B : Int → Int) (env : Env) (s : Session) : Session :=
  let fd := os_open env s.open_fds
  let s := { s with global_fd := fd,
                    open_fds := if 0 ≤ fd then fd :: s.open_fds else s.open_fds }
  if !(isatty env s.global_fd) || !env.tcsetattr_ok then fd_err g B env s
  else print_status g B s

/-- The function `try_update_fd(str)`; `none` is the call with `NULL`. -/
def try_update_fd (g : Geom) (B : Int → Int) (env : Env) (s : Session)
    (str : Option String) : Session :=
  let s := if 0 ≤ s.global_fd then
      { s with open_fds := s.open_fds.erase s.global_fd, global_fd := -1 }
    else s
  match str with
  | none => reopen g B env s
  | some p =>
    if p.length ≤ 0 then
      print_status g B { s with global_fd_name := NO_FD_PLACEHOLDER }
    else
      reopen g B env { s with global_fd_name := p }

/-- The search loop of `try_set_baud`: index of the first row whose numeric
rate is `baud`; `none` is `found = -1`. -/
def find_baud (B : Int → Int) (baud : Int) : Option Nat :=
  (BAUD_MAP B).findIdx? (fun e => e.1 == baud)

/-- The failure branch of `try_set_baud` (lines 268-276): the message is
printed on the error row without clearing it, then `fd_err` runs. -/
def baud_set_failed (g : Geom) (B : Int → Int) (env : Env) (s : Session) : Session :=
  fd_err g B env
    (mvprintw_fail g (centre g (BAUD_SET_FAIL_MSG.length + env.strerror.length))
      (BAUD_SET_FAIL_MSG ++ env.strerror) s)

def try_set_baud (g : Geom) (B : Int → Int) (env : Env) (s : Session) (baud : Int) :
    Session :=
  match find_baud B baud with
  | none => PRINT_ERR g BAD_BAUD_MSG s
  | some found =>
    let c := ((BAUD_MAP B).getD found (0, 0)).2
    if !env.cfsetispeed_ok then baud_set_failed g B env s
    else
      let s := { s with global_config := { s.global_config with c_ispeed := c } }
      if !env.cfsetospeed_ok then baud_set_failed g B env s
      else
        let s := { s with global_config := { s.global_config with c_ospeed := c } }
        let s := if 0 ≤ s.global_fd then try_update_fd g B env s none else s
        print_status g B s

/-- The session `main` has built when it reaches the option loop (lines
317-329): a cleared screen, flags `IGNBRK | IGNPAR` and `CS8`, both speeds
`B115200`, no device. -/
def init_session (g : Geom) (B : Int → Int) : Session :=
  { global_config := { c_iflag := 5, c_cflag := 48, c_ispeed := B 115200,
                       c_ospeed := B 115200 },
    global_monitoring := false,
    global_mode := .CHAR,
    global_fd := -1,
    global_fd_name := NO_FD_PLACEHOLDER,
    fail_row := if move_ok g FAIL_MSG_ROW 0 then some (blank_row g) else none,
    status_row := if move_ok g STATUS_MSG_ROW 0 then some (blank_row g) else none,
    open_fds := [] }

/-- An environment in which every call succeeds and nothing is read. -/
def env_ok : Env :=
  { open_ok := true, isatty_ok := true, tcsetattr_ok := true,
    cfsetispeed_ok := true, cfsetospeed_ok := true, write_ok := true,
    read_res := some [], getyx := (0, 0), strerror := "Success" }

/-- An environment in which `open` succeeds on a target that is not a
terminal (such as `/dev/null`), so `isatty` fails with `ENOTTY`. -/
def env_not_tty : Env :=
  { env_ok with isatty_ok := false, strerror := "Inappropriate ioctl for device" }

/-- No descriptor is leaked: every descriptor the process still holds open is
the session handle `global_fd`. -/
def no_leak (s : Session) : Prop :=
  ∀ fd ∈ s.open_fds, fd = s.global_fd

instance (s : Session) : Decidable (no_leak s) := by
  unfold no_leak
  infer_instance

/-! ## `handle_enter` (lines 283-314) -/

/-- The C library's `isspace` in the "C" locale. -/
def isspace (c : Char) : Bool :=
  c == ' ' || (decide (9 ≤ c.toNat) && decide (c.toNat ≤ 13))

/-- The C library's `atoi`, as `(int) strtol(str, NULL, 10)`: leading blanks,
an optional sign, the decimal digits; the value is clamped to `long` and then
cut to `int`. -/
def atoi (str : String) : Int :=
  let cs := str.toList.dropWhile isspace
  let neg := cs.head? == some '-'
  let cs := if cs.head? == some '-' || cs.head? == some '+' then cs.tail else cs
  let n : Int := (cs.takeWhile Char.isDigit).foldl
    (fun acc c => acc * 10 + ((c.toNat - 48 : Nat) : Int)) 0
  let v := if neg then -n else n
  to_int (max (-9223372036854775808) (min v 9223372036854775807))

def handle_enter (g : Geom) (B : Int → Int) (env : Env) (s : Session) (str : String)
    (sel : Selection) : Session :=
  let s := clear_fail_row g s
  match sel with
  | .FD => print_status g B (try_update_fd g B env s (some str))
  | .BAUD => if str.length ≤ 0 then s else try_set_baud g B env s (atoi str)
  | .SEND =>
    if s.global_fd < 0 then print_status g B (PRINT_ERR g SEND_NO_FD_MSG s)
    else
      let s := if !env.write_ok then fd_err g B env s else s
      print_status g B s

/-! ## `main`: geometry (lines 393-430) -/

/-- Lines 394-395:
`DATA_ROWS = ROWS - DATA_START_ROW; DATA_ROWS -= (DATA_ROWS + 1) & 1`.
The `unsigned` difference stored back in an `int` is the signed difference
(`ROWS` is a terminal height); on two's complement `x & 1` is `x mod 2` with a
non-negative result. -/
def DATA_ROWS (g : Geom) : Int :=
  let d := g.ROWS - DATA_START_ROW
  d - (d + 1) % 2

/-- Line 396, `GRAPH_CENTER = DATA_START_ROW + (DATA_ROWS / 2)`: an `unsigned`
sum of an `unsigned` and a truncating `int` quotient, stored in a `double`. -/
def GRAPH_CENTER (g : Geom) : ℚ :=
  ((u32 (DATA_START_ROW + (DATA_ROWS g).tdiv 2) : Int) : ℚ)

/-- Line 397, `GRAPH_SCALAR = (double)0x80 / ((DATA_ROWS - 1) / 2)`, the inner
quotient being the truncating `int` division.  The `double` arithmetic is
taken exactly, in the rationals. -/
def GRAPH_SCALAR (g : Geom) : ℚ :=
  (128 : ℚ) / (((DATA_ROWS g - 1).tdiv 2 : Int) : ℚ)

/-- The C library's `round`: nearest integer, halves away from zero. -/
def c_round (q : ℚ) : Int :=
  if 0 ≤ q then ⌊q + 1 / 2⌋ else -⌊-q + 1 / 2⌋

/-- Conversion of a `double` to `int`: truncation towards zero. -/
def c_trunc (q : ℚ) : Int :=
  if 0 ≤ q then ⌊q⌋ else -⌊-q⌋

/-- The value of a received byte as a (signed) `char`. -/
def schar (b : Nat) : Int :=
  if b % 256 < 128 then ((b % 256 : Nat) : Int) else ((b % 256 : Nat) : Int) - 256

/-- The marker row of graph mode (line 607):
`GRAPH_CENTER - (int)round((double)buffer[i] / GRAPH_SCALAR)`, stored in the
`int` `cursor_row`. -/
def graph_row (g : Geom) (b : Nat) : Int :=
  c_trunc (GRAPH_CENTER g - ((c_round (((schar b : Int) : ℚ) / GRAPH_SCALAR g) : Int) : ℚ))

/-- The length `strlen(INPUT_MSG[sel])`. -/
def INPUT_MSG_len (sel : Selection) : Int :=
  ((INPUT_MSG.getD sel.toNat "").length : Int)

/-- The array `max_input_len` (line 399), in `unsigned` arithmetic. -/
def max_input_len (g : Geom) : Selection → Int
  | .FD => u32 (u32 (g.COLS - 3 * INPUT_PADDING) / 2 + (g.COLS + 1).tmod 2)
  | .BAUD => u32 (g.COLS - 3 * INPUT_PADDING) / 2
  | .SEND => u32 (g.COLS - 2 * INPUT_PADDING)

/-- The array `max_text_len` (line 404), an `unsigned` value. -/
def max_text_len (g : Geom) (sel : Selection) : Nat :=
  (u32 (max_input_len g sel - INPUT_MSG_len sel)).toNat

/-- Line 423, `int len = max_text_len[i] + 1`. -/
def buffer_len (g : Geom) (sel : Selection) : Int :=
  to_int ((max_text_len g sel : Int) + 1)

/-! ## `main`: the loop state -/

/-- One output call on `stdscr` in the data region: a cursor move, or text
put at the cursor (`addch`, `printw`). -/
inductive Draw where
  | move (y x : Int)
  | put (s : String)
deriving DecidableEq, Repr

/-- A curses window: its geometry, the `mvwprintw` calls made on it (`out`),
each with its target cell `(y, x)` and its text, and those of the calls that
printed (`shown`): curses refuses to move to a cell that is not in the window
and then prints nothing. -/
structure WINDOW where
  nlines : Int
  ncols : Int
  begin_y : Int
  begin_x : Int
  out : List (Int × Int × String)
  shown : List (Int × Int × String)
deriving DecidableEq, Repr

/-- The globals together with the locals of `main` that live across loop
iterations, and the output made on the data region of `stdscr` since it was
last cleared. -/
structure MainState where
  sess : Session
  sel : Selection
  current_len : Selection → Nat
  text : Selection → List Nat
  cursor_row : Int
  cursor_col : Int
  data_win : Option WINDOW
  stdscr_data : List Draw

/-- A freshly allocated field buffer of `n` bytes: `malloc` leaves the
content (`garbage`) as it was, the code stores the final `NUL`. -/
def alloc_text (n : Nat) (garbage : List Nat) : List Nat :=
  (List.range (n - 1)).map (fun j => garbage.getD j 0 % 256) ++ [0]

/-- The part of `main` after the option loop up to the first iteration
(lines 393-452); `sess` is the session the option loop left.  `none` is the
early `return 1` on a terminal too narrow for the field buffers. -/
def main_init (g : Geom) (B : Int → Int) (heap : Selection → List Nat)
    (sess : Session) : Option MainState :=
  if buffer_len g .FD ≤ 0 ∨ buffer_len g .BAUD ≤ 0 ∨ buffer_len g .SEND ≤ 0 then none
  else some
    { sess := print_status g B sess,
      sel := .FD,
      current_len := fun _ => 0,
      text := fun i => alloc_text (buffer_len g i).toNat (heap i),
      cursor_row := 0,
      cursor_col := 0,
      data_win := none,
      stdscr_data := [] }

/-! ## `main`: the key switch (lines 456-533) -/

/-- The macro `_CTRL(ch)`, `ch & 0x1f`; on two's complement this is `ch mod 32`
with a non-negative result. -/
def _CTRL (ch : Int) : Int := ch % 32

/-- The code of a character constant. -/
def chr (c : Char) : Int := (c.toNat : Int)

/-- Key codes of `<ncurses.h>`.  The program never calls `keypad`, so for a key
press `wgetch` delivers the bytes the terminal sends (an arrow key arrives as
an escape sequence of three bytes) and none of the `KEY_` codes. -/
def ERR : Int := -1
def KEY_DOWN : Int := 258
def KEY_UP : Int := 259
def KEY_LEFT : Int := 260
def KEY_RIGHT : Int := 261
def KEY_BACKSPACE : Int := 263
def KEY_DL : Int := 328
def KEY_ENTER : Int := 343

/-- The enumerator with a given value. -/
def mode_of : Nat → Mode
  | 0 => .CHAR
  | 1 => .GRAPH
  | 2 => .HEX
  | 3 => .UINT
  | _ => .INT

/-- Lines 474-475, `global_mode++; if (global_mode >= NUM_MODES) global_mode = 0;`. -/
def next_mode (m : Mode) : Mode :=
  if NUM_MODES ≤ m.toNat + 1 then .CHAR else mode_of (m.toNat + 1)

/-- The C string held in a buffer: the bytes before the first `NUL`. -/
def cstr (buf : List Nat) : String :=
  String.mk ((buf.takeWhile (fun b => b != 0)).map Char.ofNat)

/-- The calls `move(DATA_START_ROW, 0); clrtobot();`.  When the move fails the
screen is cleared from wherever the cursor is, and the message rows are no
longer tracked. -/
def clear_data (g : Geom) (s : Session) : Session :=
  if move_ok g DATA_START_ROW 0 then s else untracked s

/-- Output on `stdscr` that starts with `move(y, x)` and then runs to the
right and downwards.  Started below the status row it leaves the message rows
alone; when the move fails the output starts wherever the cursor is, and the
message rows are no longer tracked. -/
def stdscr_output (g : Geom) (y x : Int) (s : Session) : Session :=
  if decide (STATUS_MSG_ROW < y) && move_ok g y x then s else untracked s

/-- The case `_CTRL('x')` (lines 459-472): toggle monitoring. -/
def toggle_monitor (g : Geom) (B : Int → Int) (st : MainState) : MainState :=
  let st := if !st.sess.global_monitoring then
              { st with stdscr_data := [], sess := clear_data g st.sess }
            else { st with data_win := none }
  let s := { st.sess with global_monitoring := !st.sess.global_monitoring }
  { st with cursor_row := 0, cursor_col := 0, sess := print_status g B s }

/-- The case `_CTRL('z')` (lines 473-485): next display mode. -/
def cycle_mode (g : Geom) (B : Int → Int) (st : MainState) : MainState :=
  let s := { st.sess with global_mode := next_mode st.sess.global_mode }
  let st := if st.data_win.isSome then { st with data_win := none } else st
  { st with cursor_row := 0, cursor_col := 0, stdscr_data := [],
            sess := print_status g B (clear_data g s) }

/-- The case `KEY_UP` / `_CTRL('w')` (lines 487-490). -/
def key_up (st : MainState) : MainState :=
  if st.sel = .SEND then { st with sel := .FD } else st

/-- The case `KEY_BACKSPACE` / `KEY_DL` / `0x7F` (lines 504-514). -/
def delete_char (st : MainState) : MainState :=
  if st.current_len st.sel = 0 then st
  else
    let len := (st.current_len st.sel - 1) % 4294967296
    { st with current_len := Function.update st.current_len st.sel len,
              text := Function.update st.text st.sel ((st.text st.sel).set len 0) }

/-- The case `default` (lines 523-532): insert the key into the focused
field. -/
def insert_char (g : Geom) (input : Int) (st : MainState) : MainState :=
  if st.current_len st.sel = max_text_len g st.sel ∨ input > 0x7F ∨
      input = _CTRL input then st
  else
    let len := st.current_len st.sel
    let buf := (st.text st.sel).set len (input % 256).toNat
    let len := (len + 1) % 4294967296
    { st with current_len := Function.update st.current_len st.sel len,
              text := Function.update st.text st.sel (buf.set len 0) }

/-- The case `KEY_ENTER` / newline (lines 516-519). -/
def submit (g : Geom) (B : Int → Int) (env : Env) (st : MainState) : MainState :=
  { st with sess := handle_enter g B env st.sess (cstr (st.text st.sel)) st.sel }

/-- The `switch (input)` of the main loop.  `none` is `goto exit`. -/
def key_switch (g : Geom) (B : Int → Int) (env : Env) (input : Int)
    (st : MainState) : Option MainState :=
  if input = _CTRL (chr 'c') then none
  else if input = _CTRL (chr 'x') then some (toggle_monitor g B st)
  else if input = _CTRL (chr 'z') then some (cycle_mode g B st)
  else if input = KEY_UP ∨ input = _CTRL (chr 'w') then some (key_up st)
  else if input = KEY_RIGHT ∨ input = _CTRL (chr 'a') then some { st with sel := .FD }
  else if input = KEY_DOWN ∨ input = _CTRL (chr 's') then some { st with sel := .SEND }
  else if input = KEY_LEFT ∨ input = _CTRL (chr 'd') then some { st with sel := .BAUD }
  else if input = KEY_BACKSPACE ∨ input = KEY_DL ∨ input = 0x7F then some (delete_char st)
  else if input = KEY_ENTER ∨ input = chr '\n' then some (submit g B env st)
  else if input = ERR then some st
  else some (insert_char g input st)

/-- The key reaches the `default:` label of the switch: it is none of the
`case` constants. -/
def reaches_insert (input : Int) : Prop :=
  input ≠ _CTRL (chr 'c') ∧ input ≠ _CTRL (chr 'x') ∧ input ≠ _CTRL (chr 'z') ∧
  input ≠ KEY_UP ∧ input ≠ _CTRL (chr 'w') ∧ input ≠ KEY_RIGHT ∧
  input ≠ _CTRL (chr 'a') ∧ input ≠ KEY_DOWN ∧ input ≠ _CTRL (chr 's') ∧
  input ≠ KEY_LEFT ∧ input ≠ _CTRL (chr 'd') ∧ input ≠ KEY_BACKSPACE ∧
  input ≠ KEY_DL ∧ input ≠ 0x7F ∧ input ≠ KEY_ENTER ∧ input ≠ chr '\n' ∧
  input ≠ ERR

instance (input : Int) : Decidable (reaches_insert input) := by
  unfold reaches_insert
  infer_instance

/-! ## `main`: reading and rendering (lines 535-636) -/

/-- The call `read(global_fd, &buffer, BUFFER_SIZE - 1)`: `none` on error,
otherwise at most 63 bytes. -/
def os_read (env : Env) : Option (List Nat) :=
  env.read_res.map (fun bs => (bs.take 63).map (fun b => b % 256))

/-- The curses call `newwin`: `NULL` when an argument is negative (the sizes
the program passes are never 0). -/
def newwin (nlines ncols begin_y begin_x : Int) : Option WINDOW :=
  if nlines < 0 ∨ ncols < 0 ∨ begin_y < 0 ∨ begin_x < 0 then none
  else some { nlines := nlines, ncols := ncols, begin_y := begin_y,
              begin_x := begin_x, out := [], shown := [] }

/-- The curses call `wmove(win, y, x)` succeeds: the target is a cell of the
window. -/
def wmove_ok (w : WINDOW) (y x : Int) : Bool :=
  decide (0 ≤ y) && decide (y < w.nlines) && decide (0 ≤ x) && decide (x < w.ncols)

/-- The curses call `mvwprintw(win, y, x, ...)`: the call is recorded on the
window with its target cell, and it prints only when the move to the target
succeeds; on `NULL` nothing happens. -/
def mvwprintw (win : Option WINDOW) (y x : Int) (text : String) : Option WINDOW :=
  win.map (fun w =>
    { w with out := w.out ++ [(y, x, text)],
             shown := if wmove_ok w y x then w.shown ++ [(y, x, text)] else w.shown })

/-- Left padding with blanks to a minimum field width. -/
def pad_left (width : Nat) (s : String) : String :=
  String.mk (List.replicate (width - s.length) ' ') ++ s

/-- The conversion `%hhX`: the argument as `unsigned char`, in upper-case
hexadecimal, without padding. -/
def fmt_hhX (b : Nat) : String :=
  String.mk ((Nat.toDigits 16 (b % 256)).map Char.toUpper)

/-- The table `DATA_NUM_FMT` applied to a byte: `%2hhX`, `%3hhu`, `%4hhi`. -/
def DATA_NUM_FMT : List (Nat → String) :=
  [ fun b => pad_left 2 (fmt_hhX b),
    fun b => pad_left 3 (toString (b % 256)),
    fun b => pad_left 4 (toString (schar b)) ]

/-- What char mode puts on the screen for one byte (lines 583-591): the
newline itself, `<0x%hhX>` for a byte outside `0x20 .. 0x7E`, otherwise the
character. -/
def char_render (b : Nat) : String :=
  if schar b = chr '\n' then "\n"
  else if schar b < 0x20 ∨ schar b ≥ 0x7f then "<0x" ++ fmt_hhX b ++ ">"
  else String.singleton (Char.ofNat (b % 256))

/-- The label `too_small:` (lines 556-560). -/
def too_small (g : Geom) (B : Int → Int) (st : MainState) : MainState :=
  let s := PRINT_ERR g TERMINAL_TOO_SMALL_MSG { st.sess with global_monitoring := false }
  { st with sess := print_status g B s }

/-- Monitoring stops by itself: `global_monitoring = false; print_status();`
(lines 596-597 and 621-622). -/
def auto_stop (g : Geom) (B : Int → Int) (st : MainState) : MainState :=
  { st with sess := print_status g B { st.sess with global_monitoring := false } }

/-- The output of the case `CHAR` (lines 579-593): the cursor is put at the
saved position (row `DATA_START_ROW` when the saved row is 0), then every byte
is rendered. -/
def char_output (g : Geom) (bs : List Nat) (st : MainState) : MainState :=
  let row := if st.cursor_row = 0 then DATA_START_ROW else st.cursor_row
  { st with cursor_row := row,
            sess := stdscr_output g row st.cursor_col st.sess,
            stdscr_data := st.stdscr_data ++
              (Draw.move row st.cursor_col :: bs.map (fun b => Draw.put (char_render b))) }

/-- The case `CHAR` of the render switch (lines 578-599). -/
def char_case (g : Geom) (B : Int → Int) (env : Env) (bs : List Nat)
    (st : MainState) : MainState :=
  let st := { char_output g bs st with cursor_row := env.getyx.1, cursor_col := env.getyx.2 }
  if st.cursor_row ≥ g.ROWS - 1 ∧ st.cursor_col ≥ g.COLS - 1 then auto_stop g B st else st

/-- One byte of the case `GRAPH` (lines 602-610). -/
def graph_plot (g : Geom) (b : Nat) (st : MainState) : MainState :=
  let col := if st.cursor_col = g.COLS - 1 then 0 else st.cursor_col
  let blanks := ((List.range (g.ROWS - DATA_START_ROW).toNat).map
    (fun k => [Draw.move (DATA_START_ROW + (k : Int)) col, Draw.put " "])).flatten
  { st with cursor_row := graph_row g b,
            sess := stdscr_output g (graph_row g b) col st.sess,
            stdscr_data := st.stdscr_data ++ blanks ++
              [Draw.move (graph_row g b) col, Draw.put "X"],
            cursor_col := col + 1 }

/-- The loop of the case `GRAPH` (lines 601-611). -/
def graph_loop (g : Geom) : List Nat → MainState → MainState
  | [], st => st
  | b :: bs, st => graph_loop g bs (graph_plot g b st)

/-- The wrap at the head of the grid loop body (lines 616-619). -/
def grid_wrap (st : MainState) : MainState :=
  if st.cursor_col ≥ 16 then { st with cursor_row := st.cursor_row + 1, cursor_col := 0 }
  else st

/-- The draw at the end of the grid loop body (lines 625-632). -/
def grid_draw (b : Nat) (st : MainState) : MainState :=
  { st with
      data_win := mvwprintw st.data_win (st.cursor_row + 1)
        (to_int (st.cursor_col * DATA_NUM_WIDTH.getD (st.sess.global_mode.toNat - 2) 0 + 2))
        (DATA_NUM_FMT.getD (st.sess.global_mode.toNat - 2) (fun _ => "") b),
      cursor_col := st.cursor_col + 1 }

/-- The loop of the grid case (lines 615-633); returning the stopped state is
the `break`. -/
def grid_loop (g : Geom) (B : Int → Int) : List Nat → MainState → MainState
  | [], st => st
  | b :: bs, st =>
    if (grid_wrap st).cursor_row ≥ DATA_ROWS g then auto_stop g B (grid_wrap st)
    else grid_loop g B bs (grid_draw b (grid_wrap st))

/-- The render switch (lines 577-636). -/
def render (g : Geom) (B : Int → Int) (env : Env) (bs : List Nat)
    (st : MainState) : MainState :=
  match st.sess.global_mode with
  | .CHAR => char_case g B env bs st
  | .GRAPH => graph_loop g bs st
  | _ => grid_loop g B bs st

/-- The lazy creation of the grid surface (lines 566-574). -/
def create_data_win (g : Geom) (st : MainState) : MainState :=
  { st with
      sess := clear_fail_row g st.sess,
      data_win := newwin (DATA_ROWS g)
        (DATA_WIN_SIZE.getD (st.sess.global_mode.toNat - 2) 0) DATA_START_ROW
        (to_int (u32 (g.COLS - DATA_WIN_SIZE.getD (st.sess.global_mode.toNat - 2) 0 + 1) / 2)) }

/-- Monitoring without a device (lines 537-544). -/
def monitor_no_fd (g : Geom) (B : Int → Int) (st : MainState) : MainState :=
  let s := clear_fail_row g { st.sess with global_monitoring := false }
  { st with sess := print_status g B (PRINT_ERR g SEND_NO_FD_MSG s) }

/-- A failed `read` (lines 547-552). -/
def read_failed (g : Geom) (B : Int → Int) (env : Env) (st : MainState) : MainState :=
  let s := fd_err g B env { st.sess with global_monitoring := false }
  { st with sess := print_status g B s }

/-- A non-empty chunk has been read (lines 555-636). -/
def on_chunk (g : Geom) (B : Int → Int) (env : Env) (bs : List Nat)
    (st : MainState) : MainState :=
  if st.sess.global_mode = .GRAPH ∧
      u32 (g.ROWS - DATA_START_ROW) < MIN_GRAPH_ROWS then too_small g B st
  else if Mode.HEX.toNat ≤ st.sess.global_mode.toNat ∧ st.data_win.isNone then
    if u32 g.COLS ≤ DATA_WIN_SIZE.getD (st.sess.global_mode.toNat - 2) 0 then
      too_small g B st
    else render g B env bs (create_data_win g st)
  else render g B env bs st

/-- The rest of a loop iteration after the key switch (lines 535-636). -/
def monitor (g : Geom) (B : Int → Int) (env : Env) (st : MainState) : MainState :=
  if !st.sess.global_monitoring then st
  else if st.sess.global_fd < 0 then monitor_no_fd g B st
  else
    match os_read env with
    | none => read_failed g B env st
    | some bs => if bs.length = 0 then st else on_chunk g B env bs st

/-- One iteration of the `while (1)` loop: the key `wgetch` returned, then the
monitoring part.  `none` is the exit. -/
def step (g : Geom) (B : Int → Int) (env : Env) (input : Int) (st : MainState) :
    Option MainState :=
  (key_switch g B env input st).map (monitor g B env)

/-- Iterations of the main loop, one per event (key and environment). -/
def run (g : Geom) (B : Int → Int) : List (Int × Env) → MainState → Option MainState
  | [], st => some st
  | (input, env) :: evs, st => (step g B env input st).bind (run g B evs)

/-- The states at a loop-iteration boundary that some sequence of keys and
environment answers leads to, from any session the option loop may leave. -/
inductive Reachable (g : Geom) (B : Int → Int) : MainState → Prop where
  | init (heap : Selection → List Nat) (sess : Session) (st : MainState) :
      main_init g B heap sess = some st → Reachable g B st
  | step (st : MainState) (env : Env) (input : Int) (st' : MainState) :
      Reachable g B st → step g B env input st = some st' → Reachable g B st'

/-- The display mode is one of the grid modes. -/
def is_grid (m : Mode) : Prop := m = .HEX ∨ m = .UINT ∨ m = .INT

instance (m : Mode) : Decidable (is_grid m) := by
  unfold is_grid
  infer_instance

/-! ## Predicates and functions used to state the properties -/

/-- Two loop states agree on the focus and on the three field buffers. -/
def same_editor (a b : MainState) : Prop :=
  a.sel = b.sel ∧ a.text = b.text ∧ a.current_len = b.current_len

/-- The content of a field: the first `current_len` bytes of its buffer. -/
def field_content (st : MainState) (i : Selection) : List Nat :=
  (st.text i).take (st.current_len i)

/-- The editor invariant: no field is longer than its maximum, and every
buffer has one byte more than the maximum. -/
def editor_ok (g : Geom) (st : MainState) : Prop :=
  ∀ i, st.current_len i ≤ max_text_len g i ∧ (st.text i).length = max_text_len g i + 1

/-- Two sessions agree on every global of the program and on the open
descriptors; they may differ in the message rows of the screen. -/
def same_globals (a b : Session) : Prop :=
  a.global_config = b.global_config ∧ a.global_monitoring = b.global_monitoring ∧
  a.global_mode = b.global_mode ∧ a.global_fd = b.global_fd ∧
  a.global_fd_name = b.global_fd_name ∧ a.open_fds = b.open_fds

/-- The cells of a row that is blank but for the text, which starts at the
centring column of its length. -/
def centred_row (g : Geom) (text : String) : List Char :=
  overlay (blank_row g) (centre g text.length).toNat text.toList

/-- The calls that printed on a window are the recorded calls whose target is
a cell of the window. -/
def win_wf (w : WINDOW) : Prop :=
  w.shown = w.out.filter (fun c => wmove_ok w c.1 c.2.1)

/-- The surface invariant: if the grid surface exists, the mode is a grid
mode, the surface has the width of that mode and `DATA_ROWS` lines, and what
it shows are the calls that target one of its cells. -/
def win_ok (g : Geom) (st : MainState) : Prop :=
  ∀ w, st.data_win = some w →
    is_grid st.sess.global_mode ∧
    w.ncols = DATA_WIN_SIZE.getD (st.sess.global_mode.toNat - 2) 0 ∧
    w.nlines = DATA_ROWS g ∧ win_wf w

/-- State `a` has the mode of `b`, and a surface of `a` is a surface of `b`
up to the calls recorded on it. -/
def win_from (a b : MainState) : Prop :=
  a.sess.global_mode = b.sess.global_mode ∧
  ∀ w, a.data_win = some w → ∃ w0, b.data_win = some w0 ∧ w.ncols = w0.ncols ∧
    w.nlines = w0.nlines ∧ (win_wf w0 → win_wf w)

/-- The path condition of the two jumps to `too_small` (lines 555 and 564). -/
def too_small_taken (g : Geom) (m : MainState) : Prop :=
  (m.sess.global_mode = .GRAPH ∧ u32 (g.ROWS - DATA_START_ROW) < MIN_GRAPH_ROWS) ∨
  (Mode.HEX.toNat ≤ m.sess.global_mode.toNat ∧ m.data_win.isNone = true ∧
    u32 g.COLS ≤ DATA_WIN_SIZE.getD (m.sess.global_mode.toNat - 2) 0)

/-- The upper-case hexadecimal digit of a value below 16. -/
def upper_hex_digit (n : Nat) : Char :=
  "0123456789ABCDEF".toList.getD n '0'

/-- The value of a byte in upper-case hexadecimal without a leading zero: one
digit below `0x10`, two digits from `0x10` on. -/
def upper_hex (b : Nat) : String :=
  if b < 16 then String.mk [upper_hex_digit b]
  else String.mk [upper_hex_digit (b / 16), upper_hex_digit (b % 16)]

/-- The number of bytes the grid holds: 16 per data row. -/
def grid_cap (g : Geom) : Nat := (16 * DATA_ROWS g).toNat

/-- The `mvwprintw` call for the `k`-th byte of the grid: window row
`k / 16 + 1`, window column `(k % 16) * DATA_NUM_WIDTH + 2`, the formatted
value. -/
def grid_cell (mode : Mode) (k : Nat) (b : Nat) : Int × Int × String :=
  (((k / 16 : Nat) : Int) + 1,
   ((k % 16 : Nat) : Int) * DATA_NUM_WIDTH.getD (mode.toNat - 2) 0 + 2,
   DATA_NUM_FMT.getD (mode.toNat - 2) (fun _ => "") b)

/-- The calls for consecutive bytes, the first of them being byte `n`. -/
def grid_cells (mode : Mode) : Nat → List Nat → List (Int × Int × String)
  | _, [] => []
  | n, b :: bs => grid_cell mode n b :: grid_cells mode (n + 1) bs

/-- The calls recorded on the grid surface, none when it does not exist. -/
def grid_calls (st : MainState) : List (Int × Int × String) :=
  match st.data_win with
  | none => []
  | some w => w.out

/-- The calls that printed on the grid surface, none when it does not exist. -/
def grid_shown (st : MainState) : List (Int × Int × String) :=
  match st.data_win with
  | none => []
  | some w => w.shown

/-- The number of bytes on the grid rows that lie inside the surface: the
loop draws grid row `r` on window row `r + 1`, and the window has `DATA_ROWS`
rows. -/
def shown_cap (g : Geom) : Nat := (16 * (DATA_ROWS g - 1)).toNat

/-- Loop iterations without a key (`wgetch` times out), one per environment. -/
def idle (envs : List Env) : List (Int × Env) :=
  envs.map (fun e => (ERR, e))

/-- The bytes the reads of the given iterations deliver, in order. -/
def received (envs : List Env) : List Nat :=
  (envs.map (fun e => (os_read e).getD [])).flatten

/-- The state of the grid display after the bytes `pre` have been received
since the cursor was reset: the mode and the device are as at the start, the
recorded calls are those made before the reset (`base`) followed by the cells
of the bytes that fit, and while monitoring is active the cursor is the one
reached after `pre.length` bytes. -/
def grid_inv (g : Geom) (m : Mode) (base : List (Int × Int × String)) (pre : List Nat)
    (st : MainState) : Prop :=
  st.sess.global_mode = m ∧ 0 ≤ st.sess.global_fd ∧
  grid_calls st = base ++ grid_cells m 0 (pre.take (grid_cap g)) ∧
  (st.sess.global_monitoring = true →
    0 ≤ st.cursor_row ∧ 0 ≤ st.cursor_col ∧ st.cursor_col ≤ 16 ∧
    16 * st.cursor_row + st.cursor_col = ((pre.length : Nat) : Int) ∧
    pre.length ≤ grid_cap g) ∧
  (st.sess.global_monitoring = false → grid_cap g ≤ pre.length)

/-! ## Concrete inputs for the examples -/

/-- The terminal of the examples: 13 rows, 100 columns (one data row). -/
def geom_small : Geom := { ROWS := 13, COLS := 100 }

/-- A terminal of 24 rows and 100 columns (11 data rows). -/
def geom_vt : Geom := { ROWS := 24, COLS := 100 }

/-- The session after `-d /dev/ttyUSB0` on a terminal device. -/
def sess_dev : Session :=
  try_update_fd geom_small linux_B env_ok (init_session geom_small linux_B)
    (some "/dev/ttyUSB0")

/-- The loop state at the first iteration on the example terminal, with the
device of `sess_dev` open and field buffers that happen to hold zeros. -/
def start_state : MainState :=
  { sess := print_status geom_small linux_B sess_dev,
    sel := .FD,
    current_len := fun _ => 0,
    text := fun i => alloc_text (buffer_len geom_small i).toNat [],
    cursor_row := 0,
    cursor_col := 0,
    data_win := none,
    stdscr_data := [] }

/-- Events of the example traces: Ctrl-Z twice (char, graph, hex), then Ctrl-X
with nothing to read yet. -/
def trace_lazy : List (Int × Env) :=
  [(_CTRL (chr 'z'), env_ok), (_CTRL (chr 'z'), env_ok), (_CTRL (chr 'x'), env_ok)]

/-- The same, followed by an iteration without a key in which 17 bytes are
read. -/
def trace_stop : List (Int × Env) :=
  trace_lazy ++ [(ERR, { env_ok with read_res := some (List.range 17) })]

/-- The state after `trace_lazy`. -/
def lazy_state : MainState :=
  (run geom_small linux_B trace_lazy start_state).getD start_state

/-- The state after `trace_stop`. -/
def stopped_state : MainState :=
  (run geom_small linux_B trace_stop start_state).getD start_state

/-- Two reads that deliver 17 bytes, `0 .. 9` and then `10 .. 16`. -/
def two_chunks : List Env :=
  [ { env_ok with read_res := some [0, 1, 2, 3, 4, 5, 6, 7, 8, 9] },
    { env_ok with read_res := some [10, 11, 12, 13, 14, 15, 16] } ]

/-- A draw call lies inside a surface: its target row is one of the rows of
the surface, and the text, starting at the target column, ends within the
width of the surface. -/
def in_surface (w : WINDOW) (c : Int × Int × String) : Prop :=
  0 ≤ c.1 ∧ c.1 < w.nlines ∧ 0 ≤ c.2.1 ∧ c.2.1 + (c.2.2.length : Int) ≤ w.ncols

instance (w : WINDOW) (c : Int × Int × String) : Decidable (in_surface w c) := by
  unfold in_surface
  infer_instance

/-- Three reads of 63 bytes each: the bytes `0 .. 188`. -/
def three_chunks : List Env :=
  [ { env_ok with read_res := some (List.range 63) },
    { env_ok with read_res := some ((List.range 63).map (fun k => k + 63)) },
    { env_ok with read_res := some ((List.range 63).map (fun k => k + 126)) } ]

/-- The state after `three_chunks` in hex mode on the terminal of 24 rows. -/
def full_state : MainState :=
  (run geom_vt linux_B (idle three_chunks) lazy_state).getD lazy_state

/-- The calls recorded on the grid surface that do not lie inside it. -/
def calls_outside (st : MainState) : List (Int × Int × String) :=
  match st.data_win with
  | none => []
  | some w => w.out.filter (fun c => decide (¬ in_surface w c))

/-- A terminal of 24 rows and 40 columns: wide enough for the three input
fields, narrower than the longer messages. -/
def geom_narrow : Geom := { ROWS := 24, COLS := 40 }

/-- The status text: device name, baud text, mode name, and ` (off)` when
monitoring is off. -/
def status_line (name baud : String) (mode : Mode) (monitoring : Bool) : String :=
  "Device: " ++ name ++ ", baud: " ++ baud ++ ", monitor mode: " ++ STATUS_MODE_MSG mode ++
  (if monitoring then "" else " (off)")

/-- A terminal of 24 rows and 80 columns. -/
def geom_80 : Geom := { ROWS := 24, COLS := 80 }

/-- The loop state on the terminal `g`, the program having been started with
`-d /dev/ttyUSB0` on a terminal device, after the events `evs`; `none` when
the program has exited. -/
def state_after (g : Geom) (evs : List (Int × Env)) : Option MainState :=
  (main_init g linux_B (fun _ => [])
    (try_update_fd g linux_B env_ok (init_session g linux_B) (some "/dev/ttyUSB0"))).bind
    (run g linux_B evs)

/-- Events: Ctrl-Z four times (char, graph, hex, uint, int), then Ctrl-X with
nothing to read yet. -/
def trace_int : List (Int × Env) :=
  [(_CTRL (chr 'z'), env_ok), (_CTRL (chr 'z'), env_ok), (_CTRL (chr 'z'), env_ok),
   (_CTRL (chr 'z'), env_ok), (_CTRL (chr 'x'), env_ok)]

/-- The state after `trace_lazy` on the terminal of 24 rows and 100 columns:
hex mode, monitoring active, nothing read yet. -/
def lazy_vt : MainState :=
  (state_after geom_vt trace_lazy).getD start_state

/-- A target cell is a cell of a window of `DATA_ROWS` lines and of the width
of the mode. -/
def cell_ok (g : Geom) (m : Mode) (c : Int × Int × String) : Bool :=
  decide (0 ≤ c.1) && decide (c.1 < DATA_ROWS g) && decide (0 ≤ c.2.1) &&
  decide (c.2.1 < DATA_WIN_SIZE.getD (m.toNat - 2) 0)

/-- The events of `trace_lazy`, then an iteration in which one byte is read,
then an iteration in which the read fails. -/
def trace_read_error : List (Int × Env) :=
  trace_lazy ++
    [(ERR, { env_ok with read_res := some [65] }),
     (ERR, { env_ok with read_res := none, strerror := "Input/output error" })]

/-- The state after `trace_read_error`. -/
def read_error_state : MainState :=
  (run geom_small linux_B trace_read_error start_state).getD start_state

/-! ## Helper lemmas -/

theorem same_globals_refl (a : Session) : same_globals a a :=
  ⟨rfl, rfl, rfl, rfl, rfl, rfl⟩

theorem same_globals_trans {a b c : Session} (h1 : same_globals a b)
    (h2 : same_globals b c) : same_globals a c :=
  ⟨h1.1.trans h2.1, h1.2.1.trans h2.2.1, h1.2.2.1.trans h2.2.2.1,
   h1.2.2.2.1.trans h2.2.2.2.1, h1.2.2.2.2.1.trans h2.2.2.2.2.1,
   h1.2.2.2.2.2.trans h2.2.2.2.2.2⟩

theorem untracked_globals (s : Session) : same_globals (untracked s) s :=
  ⟨rfl, rfl, rfl, rfl, rfl, rfl⟩

theorem clear_fail_row_globals (g : Geom) (s : Session) :
    same_globals (clear_fail_row g s) s := by
  unfold clear_fail_row
  split
  · exact ⟨rfl, rfl, rfl, rfl, rfl, rfl⟩
  · exact untracked_globals s

theorem mvprintw_fail_globals (g : Geom) (x : Int) (text : String) (s : Session) :
    same_globals (mvprintw_fail g x text s) s := by
  unfold mvprintw_fail
  split
  · exact untracked_globals s
  · split
    · exact same_globals_refl s
    · split
      · exact ⟨rfl, rfl, rfl, rfl, rfl, rfl⟩
      · split
        · exact ⟨rfl, rfl, rfl, rfl, rfl, rfl⟩
        · exact untracked_globals s

theorem PRINT_ERR_globals (g : Geom) (str : String) (s : Session) :
    same_globals (PRINT_ERR g str s) s := by
  unfold PRINT_ERR
  exact same_globals_trans (mvprintw_fail_globals g _ _ _) (clear_fail_row_globals g s)

theorem print_status_globals (g : Geom) (B : Int → Int) (s : Session) :
    same_globals (print_status g B s) s := by
  unfold print_status
  split
  · exact untracked_globals s
  · exact ⟨rfl, rfl, rfl, rfl, rfl, rfl⟩

theorem clear_data_globals (g : Geom) (s : Session) : same_globals (clear_data g s) s := by
  unfold clear_data
  split
  · exact same_globals_refl s
  · exact untracked_globals s

theorem stdscr_output_globals (g : Geom) (y x : Int) (s : Session) :
    same_globals (stdscr_output g y x s) s := by
  unfold stdscr_output
  split
  · exact same_globals_refl s
  · exact untracked_globals s

/-- What `fd_err` does to the globals: the handle is none, the display name is
the placeholder, everything else (the open descriptors included) is as
before. -/
theorem fd_err_fields (g : Geom) (B : Int → Int) (env : Env) (s : Session) :
    (fd_err g B env s).global_config = s.global_config ∧
    (fd_err g B env s).global_monitoring = s.global_monitoring ∧
    (fd_err g B env s).global_mode = s.global_mode ∧
    (fd_err g B env s).global_fd = -1 ∧
    (fd_err g B env s).global_fd_name = NO_FD_PLACEHOLDER ∧
    (fd_err g B env s).open_fds = s.open_fds := by
  unfold fd_err
  dsimp only
  obtain ⟨p1, p2, p3, p4, p5, p6⟩ := print_status_globals g B
    { mvprintw_fail g (centre g (FD_FAIL_MSG.length + env.strerror.length))
        (FD_FAIL_MSG ++ env.strerror) (clear_fail_row g { s with global_fd := -1 }) with
      global_fd_name := NO_FD_PLACEHOLDER }
  obtain ⟨m1, m2, m3, m4, _, m6⟩ := same_globals_trans
    (mvprintw_fail_globals g (centre g (FD_FAIL_MSG.length + env.strerror.length))
      (FD_FAIL_MSG ++ env.strerror) (clear_fail_row g { s with global_fd := -1 }))
    (clear_fail_row_globals g { s with global_fd := -1 })
  exact ⟨p1.trans m1, p2.trans m2, p3.trans m3, p4.trans m4, p5, p6.trans m6⟩

theorem print_status_config (g : Geom) (B : Int → Int) (s : Session) :
    (print_status g B s).global_config = s.global_config :=
  (print_status_globals g B s).1

theorem fd_err_config (g : Geom) (B : Int → Int) (env : Env) (s : Session) :
    (fd_err g B env s).global_config = s.global_config :=
  (fd_err_fields g B env s).1

theorem reopen_config (g : Geom) (B : Int → Int) (env : Env) (s : Session) :
    (reopen g B env s).global_config = s.global_config := by
  unfold reopen
  dsimp only
  split
  · rw [fd_err_config]
  · rw [print_status_config]

theorem try_update_fd_config (g : Geom) (B : Int → Int) (env : Env) (s : Session)
    (str : Option String) :
    (try_update_fd g B env s str).global_config = s.global_config := by
  unfold try_update_fd
  cases str with
  | none => dsimp only; rw [reopen_config]; split <;> rfl
  | some p =>
    dsimp only
    split
    · rw [print_status_config]; dsimp only; split <;> rfl
    · rw [reopen_config]; dsimp only; split <;> rfl

theorem getD_pair (m : List (Int × Int)) (i : Nat) (hi : i < m.length) :
    m.getD i (0, 0) = m[i] := by
  simp [List.getD_eq_getElem?_getD, List.getElem?_eq_getElem hi]

/-- In a table whose second components are pairwise distinct, looking up the
second component of row `i` finds row `i` again. -/
theorem findIdx_snd_of_nodup (m : List (Int × Int))
    (hnd : (m.map Prod.snd).Nodup) (i : Nat) (hi : i < m.length) :
    m.findIdx? (fun e => e.2 == (m.getD i (0, 0)).2) = some i := by
  rw [List.findIdx?_eq_some_iff_getElem, getD_pair m i hi]
  refine ⟨hi, by simp, ?_⟩
  intro j hji hp
  have hj : j < m.length := Nat.lt_trans hji hi
  simp only [beq_iff_eq] at hp
  have hjm : j < (m.map Prod.snd).length := by simpa using hj
  have him : i < (m.map Prod.snd).length := by simpa using hi
  have h2 : (m.map Prod.snd)[j] = (m.map Prod.snd)[i] := by simpa using hp
  have := (List.Nodup.getElem_inj_iff hnd).mp h2
  omega

/-- The row found for a numeric rate carries that rate. -/
theorem findIdx_fst_spec (m : List (Int × Int)) (baud : Int) (i : Nat)
    (h : m.findIdx? (fun e => e.1 == baud) = some i) :
    i < m.length ∧ (m.getD i (0, 0)).1 = baud := by
  rw [List.findIdx?_eq_some_iff_getElem] at h
  obtain ⟨hi, hp, _⟩ := h
  refine ⟨hi, ?_⟩
  rw [getD_pair m i hi]
  simpa using hp

/-- Every numeric rate of the table prints in at most seven characters. -/
theorem rate_fits (B : Int → Int) (r : Int)
    (hr : r ∈ (BAUD_MAP B).map Prod.fst) : (toString r).take 7 = toString r := by
  simp only [BAUD_MAP, List.map_cons, List.map_nil, List.mem_cons, List.mem_singleton,
    List.not_mem_nil, or_false] at hr
  rcases hr with h | h | h | h | h | h | h | h | h | h | h | h | h | h | h | h | h | h |
    h | h | h | h | h | h | h | h <;> subst h <;> rfl

/-- With pairwise distinct constants, the status text derived from a
configuration whose output speed is the constant of the row found for `r` is
the decimal rendering of `r`. -/
theorem status_baud_of_found (B : Int → Int)
    (hB : ((BAUD_MAP B).map Prod.snd).Nodup) (r : Int) (i : Nat)
    (hf : find_baud B r = some i) (cfg : termios)
    (hc : cfg.c_ospeed = ((BAUD_MAP B).getD i (0, 0)).2) :
    status_baud B cfg = toString r := by
  obtain ⟨hi, hr⟩ := findIdx_fst_spec (BAUD_MAP B) r i hf
  unfold status_baud status_index
  rw [hc, findIdx_snd_of_nodup (BAUD_MAP B) hB i hi, Option.getD_some, hr]
  apply rate_fits B r
  rw [← hr, getD_pair _ _ hi]
  exact List.mem_map.mpr ⟨_, List.getElem_mem _, rfl⟩

/-! ### The monitoring part does not touch the field editor -/

theorem same_editor_refl (a : MainState) : same_editor a a := ⟨rfl, rfl, rfl⟩

theorem same_editor_trans {a b c : MainState} (h1 : same_editor a b)
    (h2 : same_editor b c) : same_editor a c :=
  ⟨h1.1.trans h2.1, h1.2.1.trans h2.2.1, h1.2.2.trans h2.2.2⟩

theorem auto_stop_editor (g : Geom) (B : Int → Int) (st : MainState) :
    same_editor (auto_stop g B st) st := ⟨rfl, rfl, rfl⟩

theorem grid_wrap_editor (st : MainState) : same_editor (grid_wrap st) st := by
  unfold grid_wrap
  split
  · exact ⟨rfl, rfl, rfl⟩
  · exact same_editor_refl st

theorem grid_loop_editor (g : Geom) (B : Int → Int) (bs : List Nat) (st : MainState) :
    same_editor (grid_loop g B bs st) st := by
  induction bs generalizing st with
  | nil => exact same_editor_refl st
  | cons b bs ih =>
    unfold grid_loop
    split
    · exact same_editor_trans (auto_stop_editor g B _) (grid_wrap_editor st)
    · exact same_editor_trans (ih _)
        (same_editor_trans ⟨rfl, rfl, rfl⟩ (grid_wrap_editor st))

theorem graph_loop_editor (g : Geom) (bs : List Nat) (st : MainState) :
    same_editor (graph_loop g bs st) st := by
  induction bs generalizing st with
  | nil => exact same_editor_refl st
  | cons b bs ih =>
    unfold graph_loop
    exact same_editor_trans (ih _) ⟨rfl, rfl, rfl⟩

theorem char_case_editor (g : Geom) (B : Int → Int) (env : Env) (bs : List Nat)
    (st : MainState) : same_editor (char_case g B env bs st) st := by
  unfold char_case
  dsimp only
  split
  · exact ⟨rfl, rfl, rfl⟩
  · exact ⟨rfl, rfl, rfl⟩

theorem render_editor (g : Geom) (B : Int → Int) (env : Env) (bs : List Nat)
    (st : MainState) : same_editor (render g B env bs st) st := by
  unfold render
  split
  · exact char_case_editor g B env bs st
  · exact graph_loop_editor g bs st
  · exact grid_loop_editor g B bs st

theorem on_chunk_editor (g : Geom) (B : Int → Int) (env : Env) (bs : List Nat)
    (st : MainState) : same_editor (on_chunk g B env bs st) st := by
  unfold on_chunk
  split
  · exact ⟨rfl, rfl, rfl⟩
  · split
    · split
      · exact ⟨rfl, rfl, rfl⟩
      · exact same_editor_trans (render_editor g B env _ _) ⟨rfl, rfl, rfl⟩
    · exact render_editor g B env _ _

theorem monitor_editor (g : Geom) (B : Int → Int) (env : Env) (st : MainState) :
    same_editor (monitor g B env st) st := by
  unfold monitor
  split
  · exact same_editor_refl st
  · split
    · exact ⟨rfl, rfl, rfl⟩
    · split
      · exact ⟨rfl, rfl, rfl⟩
      · split
        · exact same_editor_refl st
        · exact on_chunk_editor g B env _ st

theorem step_sel (g : Geom) (B : Int → Int) (env : Env) (input : Int) (st : MainState) :
    (step g B env input st).map (fun t => t.sel) =
      (key_switch g B env input st).map (fun t => t.sel) := by
  unfold step
  cases key_switch g B env input st with
  | none => rfl
  | some m => exact congrArg some (monitor_editor g B env m).1

/-! ### Graph mode arithmetic -/

theorem c_trunc_intCast (z : Int) : c_trunc (z : ℚ) = z := by
  unfold c_trunc
  split
  · exact Int.floor_intCast z
  · rw [← Int.cast_neg, Int.floor_intCast]; omega

/-- The scaled value of a signed byte, `s / (128 / h)`, is `s * h / 128`. -/
theorem scaled_eq (s h : Int) :
    ((s : ℚ) / ((128 : ℚ) / (h : ℚ))) = (s : ℚ) * (h : ℚ) / 128 := by
  rw [div_div_eq_mul_div]

/-- Rounding the scaled value of a signed byte stays within `-h .. h`. -/
theorem c_round_scaled_bounds (s h : Int) (hs1 : -128 ≤ s) (hs2 : s ≤ 127)
    (hh : 0 < h) :
    -h ≤ c_round ((s : ℚ) * (h : ℚ) / 128) ∧ c_round ((s : ℚ) * (h : ℚ) / 128) ≤ h := by
  have hq : (0 : ℚ) < (h : ℚ) := by exact_mod_cast hh
  have s1 : (-128 : ℚ) ≤ (s : ℚ) := by exact_mod_cast hs1
  have s2 : (s : ℚ) ≤ 127 := by exact_mod_cast hs2
  unfold c_round
  split
  · rename_i h0
    constructor
    · have : (0 : Int) ≤ ⌊(s : ℚ) * (h : ℚ) / 128 + 1 / 2⌋ := by
        rw [Int.floor_nonneg]; linarith
      omega
    · have : ⌊(s : ℚ) * (h : ℚ) / 128 + 1 / 2⌋ < h + 1 := by
        rw [Int.floor_lt]
        push_cast
        have : (s : ℚ) * (h : ℚ) ≤ 127 * (h : ℚ) := by nlinarith
        linarith
      omega
  · rename_i h0
    have hneg : (s : ℚ) * (h : ℚ) / 128 < 0 := lt_of_not_ge h0
    constructor
    · have : ⌊-((s : ℚ) * (h : ℚ) / 128) + 1 / 2⌋ < h + 1 := by
        rw [Int.floor_lt]
        push_cast
        have : (-128 : ℚ) * (h : ℚ) ≤ (s : ℚ) * (h : ℚ) := by nlinarith
        linarith
      omega
    · have : (0 : Int) ≤ ⌊-((s : ℚ) * (h : ℚ) / 128) + 1 / 2⌋ := by
        rw [Int.floor_nonneg]; linarith
      omega

/-- The geometry of graph mode on a terminal with at least `MIN_GRAPH_ROWS`
rows below `DATA_START_ROW`: `DATA_ROWS` is `2 * h + 1` with `h` the
truncating quotient `(DATA_ROWS - 1) / 2`, and `h` is at least 2. -/
theorem data_rows_odd (g : Geom) (hrows : MIN_GRAPH_ROWS ≤ g.ROWS - DATA_START_ROW) :
    DATA_ROWS g = 2 * (DATA_ROWS g - 1).tdiv 2 + 1 ∧ 2 ≤ (DATA_ROWS g - 1).tdiv 2 := by
  unfold MIN_GRAPH_ROWS DATA_START_ROW at hrows
  have hd : 5 ≤ DATA_ROWS g := by
    unfold DATA_ROWS DATA_START_ROW; dsimp only; omega
  have hodd : DATA_ROWS g % 2 = 1 := by
    unfold DATA_ROWS DATA_START_ROW; dsimp only; omega
  rw [Int.tdiv_eq_ediv (by omega) (by omega)]
  omega

/-- With `DATA_ROWS = 2 * h + 1` and `0 < h` small, the marker row of a byte
is `DATA_START_ROW + h` minus the rounded scaled value. -/
theorem graph_row_eq (g : Geom) (b : Nat)
    (hD : DATA_ROWS g = 2 * (DATA_ROWS g - 1).tdiv 2 + 1)
    (h0 : 0 ≤ (DATA_ROWS g - 1).tdiv 2) (h1 : (DATA_ROWS g - 1).tdiv 2 ≤ 64) :
    graph_row g b = DATA_START_ROW + (DATA_ROWS g - 1).tdiv 2 -
      c_round ((schar b : ℚ) * (((DATA_ROWS g - 1).tdiv 2 : Int) : ℚ) / 128) := by
  have hc : GRAPH_CENTER g = ((DATA_START_ROW + (DATA_ROWS g - 1).tdiv 2 : Int) : ℚ) := by
    unfold GRAPH_CENTER u32
    have e : (DATA_ROWS g).tdiv 2 = (DATA_ROWS g - 1).tdiv 2 := by
      rw [Int.tdiv_eq_ediv (by omega) (by omega)]
      generalize (DATA_ROWS g - 1).tdiv 2 = h at *
      omega
    rw [e]
    unfold DATA_START_ROW
    congr 1
    omega
  unfold graph_row GRAPH_SCALAR
  rw [hc, scaled_eq, ← Int.cast_sub, c_trunc_intCast]

/-! ### The editor invariant -/

theorem max_text_len_lt (g : Geom) (i : Selection) : max_text_len g i < 4294967296 := by
  unfold max_text_len u32
  omega

theorem buffer_len_pos (g : Geom) (i : Selection) (h : ¬ buffer_len g i ≤ 0) :
    (buffer_len g i).toNat = max_text_len g i + 1 := by
  have hlt := max_text_len_lt g i
  unfold buffer_len to_int u32 at *
  split at h <;> omega

theorem alloc_text_length (n : Nat) (garbage : List Nat) (hn : 0 < n) :
    (alloc_text n garbage).length = n := by
  unfold alloc_text
  simp
  omega

theorem main_init_editor_ok (g : Geom) (B : Int → Int) (heap : Selection → List Nat)
    (sess : Session) (st : MainState) (h : main_init g B heap sess = some st) :
    editor_ok g st := by
  unfold main_init at h
  split at h
  · exact absurd h (by simp)
  · rename_i hlen
    simp only [not_or] at hlen
    have hst : st = _ := (Option.some.inj h).symm
    subst hst
    intro i
    refine ⟨Nat.zero_le _, ?_⟩
    have hi : ¬ buffer_len g i ≤ 0 := by
      cases i
      · exact hlen.1
      · exact hlen.2.1
      · exact hlen.2.2
    have := buffer_len_pos g i hi
    dsimp only
    rw [alloc_text_length _ _ (by omega), this]

theorem delete_char_editor_ok (g : Geom) (st : MainState) (hok : editor_ok g st) :
    editor_ok g (delete_char st) := by
  unfold delete_char
  split
  · exact hok
  · intro i
    have hi := hok i
    have hs := hok st.sel
    have hlt := max_text_len_lt g st.sel
    by_cases hsel : i = st.sel
    · subst hsel
      simp only [Function.update_same, List.length_set]
      omega
    · simp only [Function.update_noteq hsel]
      exact hi

theorem insert_char_editor_ok (g : Geom) (input : Int) (st : MainState)
    (hok : editor_ok g st) : editor_ok g (insert_char g input st) := by
  unfold insert_char
  split
  · exact hok
  · intro i
    have hi := hok i
    have hs := hok st.sel
    have hlt := max_text_len_lt g st.sel
    by_cases hsel : i = st.sel
    · subst hsel
      simp only [Function.update_same, List.length_set]
      omega
    · simp only [Function.update_noteq hsel]
      exact hi

theorem editor_ok_congr (g : Geom) {a b : MainState} (ht : a.text = b.text)
    (hl : a.current_len = b.current_len) (hok : editor_ok g b) : editor_ok g a := by
  intro i
  rw [ht, hl]
  exact hok i

theorem toggle_monitor_fields (g : Geom) (B : Int → Int) (st : MainState) :
    (toggle_monitor g B st).text = st.text ∧
    (toggle_monitor g B st).current_len = st.current_len ∧
    (toggle_monitor g B st).sel = st.sel := by
  unfold toggle_monitor
  dsimp only
  split <;> exact ⟨rfl, rfl, rfl⟩

theorem cycle_mode_fields (g : Geom) (B : Int → Int) (st : MainState) :
    (cycle_mode g B st).text = st.text ∧
    (cycle_mode g B st).current_len = st.current_len ∧
    (cycle_mode g B st).sel = st.sel := by
  unfold cycle_mode
  dsimp only
  split <;> exact ⟨rfl, rfl, rfl⟩

theorem key_up_fields (st : MainState) :
    (key_up st).text = st.text ∧ (key_up st).current_len = st.current_len := by
  unfold key_up
  split <;> exact ⟨rfl, rfl⟩

theorem key_switch_editor_ok (g : Geom) (B : Int → Int) (env : Env) (input : Int)
    (st st' : MainState) (hok : editor_ok g st)
    (h : key_switch g B env input st = some st') : editor_ok g st' := by
  unfold key_switch at h
  split at h
  · exact absurd h (by simp)
  split at h
  · cases h
    exact editor_ok_congr g (toggle_monitor_fields g B st).1 (toggle_monitor_fields g B st).2.1 hok
  split at h
  · cases h
    exact editor_ok_congr g (cycle_mode_fields g B st).1 (cycle_mode_fields g B st).2.1 hok
  split at h
  · cases h
    exact editor_ok_congr g (key_up_fields st).1 (key_up_fields st).2 hok
  split at h
  · cases h
    exact editor_ok_congr g rfl rfl hok
  split at h
  · cases h
    exact editor_ok_congr g rfl rfl hok
  split at h
  · cases h
    exact editor_ok_congr g rfl rfl hok
  split at h
  · cases h
    exact delete_char_editor_ok g st hok
  split at h
  · cases h
    exact editor_ok_congr g rfl rfl hok
  split at h
  · cases h
    exact hok
  · cases h
    exact insert_char_editor_ok g input st hok

theorem step_editor_ok (g : Geom) (B : Int → Int) (env : Env) (input : Int)
    (st st' : MainState) (hok : editor_ok g st)
    (h : step g B env input st = some st') : editor_ok g st' := by
  unfold step at h
  cases hk : key_switch g B env input st with
  | none => rw [hk] at h; exact absurd h (by simp)
  | some m =>
    rw [hk] at h
    have hst := (Option.some.inj h).symm
    subst hst
    have hm := key_switch_editor_ok g B env input st m hok hk
    obtain ⟨_, ht, hl⟩ := monitor_editor g B env m
    intro i
    rw [ht, hl]
    exact hm i

theorem reachable_editor_ok (g : Geom) (B : Int → Int) (st : MainState)
    (h : Reachable g B st) : editor_ok g st := by
  induction h with
  | init heap sess st hinit => exact main_init_editor_ok g B heap sess st hinit
  | step st env input st' _ hstep ih => exact step_editor_ok g B env input st st' ih hstep

theorem take_set_set (l : List Nat) (n a b : Nat) (h : n < l.length) :
    ((l.set n a).set (n + 1) b).take (n + 1) = l.take n ++ [a] := by
  induction l generalizing n with
  | nil => simp at h
  | cons x xs ih =>
    cases n with
    | zero => cases xs <;> simp
    | succ k =>
      simp only [List.length_cons, Nat.add_lt_add_iff_right] at h
      simp only [List.set_cons_succ, List.take_succ_cons, List.cons_append, ih k h]

theorem getD_set_self (l : List Nat) (n b d : Nat) (h : n < l.length) :
    (l.set n b).getD n d = b := by
  simp [List.getD_eq_getElem?_getD, List.getElem?_set, h]

/-- A key that reaches the `default:` label is handled by `insert_char`. -/
theorem key_switch_insert (g : Geom) (B : Int → Int) (env : Env) (input : Int)
    (st : MainState) (h : reaches_insert input) :
    key_switch g B env input st = some (insert_char g input st) := by
  obtain ⟨h1, h2, h3, h4, h5, h6, h7, h8, h9, h10, h11, h12, h13, h14, h15, h16, h17⟩ := h
  unfold key_switch
  simp only [h1, h2, h3, h4, h5, h6, h7, h8, h9, h10, h11, h12, h13, h14, h15, h16, h17,
    or_self, if_false]

/-- In the insert branch, the guard of `insert_char` lets the key through
exactly when it is printable and the field is below its maximum. -/
theorem insert_guard_iff (g : Geom) (input : Int) (st : MainState)
    (hlen : st.current_len st.sel ≤ max_text_len g st.sel)
    (h : reaches_insert input) (hkey : 0 ≤ input) :
    ¬ (st.current_len st.sel = max_text_len g st.sel ∨ input > 0x7F ∨
        input = _CTRL input) ↔
    (0x20 ≤ input ∧ input ≤ 0x7E ∧ st.current_len st.sel < max_text_len g st.sel) := by
  have h7f : input ≠ 0x7F := h.2.2.2.2.2.2.2.2.2.2.2.2.2.1
  unfold _CTRL
  omega

theorem start_state_init :
    main_init geom_small linux_B (fun _ => []) sess_dev = some start_state := by
  unfold main_init
  rw [if_neg (by decide)]
  rfl

theorem start_state_reachable : Reachable geom_small linux_B start_state :=
  Reachable.init _ _ _ start_state_init

/-! ### The surface invariant -/

theorem print_status_mode (g : Geom) (B : Int → Int) (s : Session) :
    (print_status g B s).global_mode = s.global_mode :=
  (print_status_globals g B s).2.2.1

theorem fd_err_mode (g : Geom) (B : Int → Int) (env : Env) (s : Session) :
    (fd_err g B env s).global_mode = s.global_mode :=
  (fd_err_fields g B env s).2.2.1

theorem reopen_mode (g : Geom) (B : Int → Int) (env : Env) (s : Session) :
    (reopen g B env s).global_mode = s.global_mode := by
  unfold reopen
  dsimp only
  split
  · rw [fd_err_mode]
  · rw [print_status_mode]

theorem try_update_fd_mode (g : Geom) (B : Int → Int) (env : Env) (s : Session)
    (str : Option String) :
    (try_update_fd g B env s str).global_mode = s.global_mode := by
  unfold try_update_fd
  cases str with
  | none => dsimp only; rw [reopen_mode]; split <;> rfl
  | some p =>
    dsimp only
    split
    · rw [print_status_mode]; dsimp only; split <;> rfl
    · rw [reopen_mode]; dsimp only; split <;> rfl

theorem baud_set_failed_mode (g : Geom) (B : Int → Int) (env : Env) (s : Session) :
    (baud_set_failed g B env s).global_mode = s.global_mode := by
  unfold baud_set_failed
  rw [fd_err_mode]
  exact (mvprintw_fail_globals g _ _ s).2.2.1

theorem try_set_baud_mode (g : Geom) (B : Int → Int) (env : Env) (s : Session)
    (baud : Int) :
    (try_set_baud g B env s baud).global_mode = s.global_mode := by
  unfold try_set_baud
  split
  · exact (PRINT_ERR_globals g _ s).2.2.1
  · dsimp only
    split
    · rw [baud_set_failed_mode]
    · split
      · rw [baud_set_failed_mode]
      · rw [print_status_mode]
        split
        · rw [try_update_fd_mode]
        · rfl

theorem handle_enter_mode (g : Geom) (B : Int → Int) (env : Env) (s : Session)
    (str : String) (sel : Selection) :
    (handle_enter g B env s str sel).global_mode = s.global_mode := by
  have hc : (clear_fail_row g s).global_mode = s.global_mode :=
    (clear_fail_row_globals g s).2.2.1
  unfold handle_enter
  cases sel with
  | FD => dsimp only; rw [print_status_mode, try_update_fd_mode, hc]
  | BAUD =>
    dsimp only
    split
    · exact hc
    · rw [try_set_baud_mode, hc]
  | SEND =>
    dsimp only
    split
    · rw [print_status_mode, (PRINT_ERR_globals g _ _).2.2.1, hc]
    · rw [print_status_mode]
      split
      · rw [fd_err_mode, hc]
      · exact hc

theorem win_from_refl (a : MainState) : win_from a a :=
  ⟨rfl, fun w h => ⟨w, h, rfl, rfl, id⟩⟩

theorem win_from_trans {a b c : MainState} (h1 : win_from a b) (h2 : win_from b c) :
    win_from a c := by
  refine ⟨h1.1.trans h2.1, ?_⟩
  intro w hw
  obtain ⟨w0, hw0, e0, f0, k0⟩ := h1.2 w hw
  obtain ⟨w1, hw1, e1, f1, k1⟩ := h2.2 w0 hw0
  exact ⟨w1, hw1, e0.trans e1, f0.trans f1, fun h => k0 (k1 h)⟩

theorem win_ok_of_from {g : Geom} {a b : MainState} (h : win_from a b) (hb : win_ok g b) :
    win_ok g a := by
  intro w hw
  obtain ⟨w0, hw0, e0, f0, k0⟩ := h.2 w hw
  obtain ⟨b1, b2, b3, b4⟩ := hb w0 hw0
  rw [h.1, e0, f0]
  exact ⟨b1, b2, b3, k0 b4⟩

theorem win_from_of_eq {a b : MainState} (hm : a.sess.global_mode = b.sess.global_mode)
    (hw : a.data_win = b.data_win) : win_from a b :=
  ⟨hm, fun w h => ⟨w, hw ▸ h, rfl, rfl, id⟩⟩

theorem auto_stop_mode (g : Geom) (B : Int → Int) (st : MainState) :
    (auto_stop g B st).sess.global_mode = st.sess.global_mode :=
  print_status_mode g B _

theorem auto_stop_fd (g : Geom) (B : Int → Int) (st : MainState) :
    (auto_stop g B st).sess.global_fd = st.sess.global_fd :=
  (print_status_globals g B _).2.2.2.1

theorem auto_stop_monitoring (g : Geom) (B : Int → Int) (st : MainState) :
    (auto_stop g B st).sess.global_monitoring = false :=
  (print_status_globals g B _).2.1

theorem auto_stop_win (g : Geom) (B : Int → Int) (st : MainState) :
    win_from (auto_stop g B st) st :=
  win_from_of_eq (auto_stop_mode g B st) rfl

theorem grid_wrap_win (st : MainState) : win_from (grid_wrap st) st := by
  unfold grid_wrap
  split
  · exact win_from_of_eq rfl rfl
  · exact win_from_refl st

/-- Recording a call keeps the relation between the calls made and the calls
that printed. -/
theorem mvwprintw_wf (w : WINDOW) (y x : Int) (t : String) (h : win_wf w) :
    win_wf { w with out := w.out ++ [(y, x, t)],
                    shown := if wmove_ok w y x then w.shown ++ [(y, x, t)] else w.shown } := by
  unfold win_wf at *
  show (if wmove_ok w y x then w.shown ++ [(y, x, t)] else w.shown) =
    (w.out ++ [(y, x, t)]).filter (fun c => wmove_ok w c.1 c.2.1)
  rw [List.filter_append, ← h]
  by_cases hok : wmove_ok w y x = true
  · simp [hok]
  · simp [hok]

theorem grid_draw_win (b : Nat) (st : MainState) : win_from (grid_draw b st) st := by
  refine ⟨rfl, ?_⟩
  intro w hw
  unfold grid_draw mvwprintw at hw
  dsimp only at hw
  cases hd : st.data_win with
  | none => rw [hd] at hw; simp at hw
  | some w0 =>
    rw [hd] at hw
    simp only [Option.map_some', Option.some.injEq] at hw
    refine ⟨w0, rfl, by rw [← hw], by rw [← hw], ?_⟩
    intro hwf
    rw [← hw]
    exact mvwprintw_wf w0 _ _ _ hwf

theorem grid_loop_win (g : Geom) (B : Int → Int) (bs : List Nat) (st : MainState) :
    win_from (grid_loop g B bs st) st := by
  induction bs generalizing st with
  | nil => exact win_from_refl st
  | cons b bs ih =>
    unfold grid_loop
    split
    · exact win_from_trans (auto_stop_win g B _) (grid_wrap_win st)
    · exact win_from_trans (ih _) (win_from_trans (grid_draw_win b _) (grid_wrap_win st))

theorem graph_plot_mode (g : Geom) (b : Nat) (st : MainState) :
    (graph_plot g b st).sess.global_mode = st.sess.global_mode :=
  (stdscr_output_globals g _ _ st.sess).2.2.1

theorem graph_loop_win (g : Geom) (bs : List Nat) (st : MainState) :
    win_from (graph_loop g bs st) st := by
  induction bs generalizing st with
  | nil => exact win_from_refl st
  | cons b bs ih =>
    unfold graph_loop
    exact win_from_trans (ih _) (win_from_of_eq (graph_plot_mode g b st) rfl)

theorem char_output_mode (g : Geom) (bs : List Nat) (st : MainState) :
    (char_output g bs st).sess.global_mode = st.sess.global_mode :=
  (stdscr_output_globals g _ _ st.sess).2.2.1

theorem char_case_win (g : Geom) (B : Int → Int) (env : Env) (bs : List Nat)
    (st : MainState) : win_from (char_case g B env bs st) st := by
  unfold char_case
  dsimp only
  split
  · exact win_from_trans (auto_stop_win g B _) (win_from_of_eq (char_output_mode g bs st) rfl)
  · exact win_from_of_eq (char_output_mode g bs st) rfl

theorem render_win (g : Geom) (B : Int → Int) (env : Env) (bs : List Nat)
    (st : MainState) : win_from (render g B env bs st) st := by
  unfold render
  split
  · exact char_case_win g B env bs st
  · exact graph_loop_win g bs st
  · exact grid_loop_win g B bs st

theorem too_small_mode (g : Geom) (B : Int → Int) (st : MainState) :
    (too_small g B st).sess.global_mode = st.sess.global_mode :=
  (print_status_mode g B _).trans (PRINT_ERR_globals g _ _).2.2.1

theorem too_small_monitoring (g : Geom) (B : Int → Int) (st : MainState) :
    (too_small g B st).sess.global_monitoring = false :=
  ((print_status_globals g B _).2.1).trans (PRINT_ERR_globals g _ _).2.1

theorem too_small_win (g : Geom) (B : Int → Int) (st : MainState) :
    win_from (too_small g B st) st :=
  win_from_of_eq (too_small_mode g B st) rfl

theorem monitor_no_fd_mode (g : Geom) (B : Int → Int) (st : MainState) :
    (monitor_no_fd g B st).sess.global_mode = st.sess.global_mode :=
  (print_status_mode g B _).trans
    (((PRINT_ERR_globals g _ _).2.2.1).trans (clear_fail_row_globals g _).2.2.1)

theorem monitor_no_fd_monitoring (g : Geom) (B : Int → Int) (st : MainState) :
    (monitor_no_fd g B st).sess.global_monitoring = false :=
  ((print_status_globals g B _).2.1).trans
    (((PRINT_ERR_globals g _ _).2.1).trans (clear_fail_row_globals g _).2.1)

theorem read_failed_mode (g : Geom) (B : Int → Int) (env : Env) (st : MainState) :
    (read_failed g B env st).sess.global_mode = st.sess.global_mode :=
  (print_status_mode g B _).trans (fd_err_mode g B env _)

theorem read_failed_monitoring (g : Geom) (B : Int → Int) (env : Env) (st : MainState) :
    (read_failed g B env st).sess.global_monitoring = false :=
  ((print_status_globals g B _).2.1).trans (fd_err_fields g B env _).2.1

theorem hex_le_is_grid (m : Mode) (h : Mode.HEX.toNat ≤ m.toNat) : is_grid m := by
  cases m <;> simp [Mode.toNat, is_grid] at h ⊢

theorem create_data_win_mode (g : Geom) (st : MainState) :
    (create_data_win g st).sess.global_mode = st.sess.global_mode :=
  (clear_fail_row_globals g st.sess).2.2.1

theorem create_data_win_ok (g : Geom) (st : MainState)
    (h : Mode.HEX.toNat ≤ st.sess.global_mode.toNat) : win_ok g (create_data_win g st) := by
  intro w hw
  rw [create_data_win_mode]
  refine ⟨hex_le_is_grid _ h, ?_⟩
  unfold create_data_win newwin at hw
  dsimp only at hw
  split at hw
  · simp at hw
  · simp only [Option.some.injEq] at hw
    rw [← hw]
    exact ⟨rfl, rfl, rfl⟩

theorem on_chunk_win_ok (g : Geom) (B : Int → Int) (env : Env) (bs : List Nat)
    (st : MainState) (hok : win_ok g st) : win_ok g (on_chunk g B env bs st) := by
  unfold on_chunk
  split
  · exact win_ok_of_from (too_small_win g B st) hok
  · split
    · rename_i hgrid
      split
      · exact win_ok_of_from (too_small_win g B st) hok
      · exact win_ok_of_from (render_win g B env bs _) (create_data_win_ok g st hgrid.1)
    · exact win_ok_of_from (render_win g B env bs st) hok

theorem monitor_win_ok (g : Geom) (B : Int → Int) (env : Env) (st : MainState)
    (hok : win_ok g st) : win_ok g (monitor g B env st) := by
  unfold monitor
  split
  · exact hok
  · split
    · exact win_ok_of_from (win_from_of_eq (monitor_no_fd_mode g B st) rfl) hok
    · split
      · exact win_ok_of_from (win_from_of_eq (read_failed_mode g B env st) rfl) hok
      · split
        · exact hok
        · exact on_chunk_win_ok g B env _ st hok

theorem toggle_monitor_mode (g : Geom) (B : Int → Int) (st : MainState) :
    (toggle_monitor g B st).sess.global_mode = st.sess.global_mode := by
  unfold toggle_monitor
  dsimp only
  rw [print_status_mode]
  dsimp only
  split
  · exact (clear_data_globals g st.sess).2.2.1
  · rfl

theorem toggle_monitor_monitoring (g : Geom) (B : Int → Int) (st : MainState) :
    (toggle_monitor g B st).sess.global_monitoring = !st.sess.global_monitoring := by
  unfold toggle_monitor
  dsimp only
  rw [(print_status_globals g B _).2.1]
  dsimp only
  split
  · rw [(clear_data_globals g st.sess).2.1]
  · rfl

theorem toggle_monitor_fd (g : Geom) (B : Int → Int) (st : MainState) :
    (toggle_monitor g B st).sess.global_fd = st.sess.global_fd := by
  unfold toggle_monitor
  dsimp only
  rw [(print_status_globals g B _).2.2.2.1]
  dsimp only
  split
  · exact (clear_data_globals g st.sess).2.2.2.1
  · rfl

theorem toggle_monitor_data_win (g : Geom) (B : Int → Int) (st : MainState) :
    (toggle_monitor g B st).data_win =
      if st.sess.global_monitoring then none else st.data_win := by
  unfold toggle_monitor
  dsimp only
  cases st.sess.global_monitoring <;> rfl

theorem toggle_monitor_win_ok (g : Geom) (B : Int → Int) (st : MainState)
    (hok : win_ok g st) : win_ok g (toggle_monitor g B st) := by
  by_cases hm : st.sess.global_monitoring = true
  · intro w hw
    rw [toggle_monitor_data_win, hm] at hw
    simp at hw
  · refine win_ok_of_from (win_from_of_eq (toggle_monitor_mode g B st) ?_) hok
    rw [toggle_monitor_data_win]
    simp [hm]

theorem cycle_mode_data_win (g : Geom) (B : Int → Int) (st : MainState) :
    (cycle_mode g B st).data_win = none := by
  unfold cycle_mode
  dsimp only
  split
  · rfl
  · rename_i h
    simpa using h

theorem cycle_mode_mode (g : Geom) (B : Int → Int) (st : MainState) :
    (cycle_mode g B st).sess.global_mode = next_mode st.sess.global_mode :=
  (print_status_mode g B _).trans (clear_data_globals g _).2.2.1

theorem submit_mode (g : Geom) (B : Int → Int) (env : Env) (st : MainState) :
    (submit g B env st).sess.global_mode = st.sess.global_mode :=
  handle_enter_mode g B env _ _ _

theorem key_switch_win_ok (g : Geom) (B : Int → Int) (env : Env) (input : Int)
    (st st' : MainState) (hok : win_ok g st)
    (h : key_switch g B env input st = some st') : win_ok g st' := by
  unfold key_switch at h
  split at h
  · exact absurd h (by simp)
  split at h
  · cases h
    exact toggle_monitor_win_ok g B st hok
  split at h
  · cases h
    intro w hw
    rw [cycle_mode_data_win] at hw
    simp at hw
  split at h
  · cases h
    unfold key_up
    split
    · exact win_ok_of_from (win_from_of_eq rfl rfl) hok
    · exact hok
  split at h
  · cases h
    exact win_ok_of_from (win_from_of_eq rfl rfl) hok
  split at h
  · cases h
    exact win_ok_of_from (win_from_of_eq rfl rfl) hok
  split at h
  · cases h
    exact win_ok_of_from (win_from_of_eq rfl rfl) hok
  split at h
  · cases h
    unfold delete_char
    split
    · exact hok
    · exact win_ok_of_from (win_from_of_eq rfl rfl) hok
  split at h
  · cases h
    exact win_ok_of_from (win_from_of_eq (submit_mode g B env st) rfl) hok
  split at h
  · cases h
    exact hok
  · cases h
    unfold insert_char
    split
    · exact hok
    · exact win_ok_of_from (win_from_of_eq rfl rfl) hok

theorem step_win_ok (g : Geom) (B : Int → Int) (env : Env) (input : Int)
    (st st' : MainState) (hok : win_ok g st)
    (h : step g B env input st = some st') : win_ok g st' := by
  unfold step at h
  cases hk : key_switch g B env input st with
  | none => rw [hk] at h; exact absurd h (by simp)
  | some m =>
    rw [hk] at h
    have hst := (Option.some.inj h).symm
    subst hst
    exact monitor_win_ok g B env m (key_switch_win_ok g B env input st m hok hk)

theorem main_init_win_ok (g : Geom) (B : Int → Int) (heap : Selection → List Nat)
    (sess : Session) (st : MainState) (h : main_init g B heap sess = some st) :
    win_ok g st := by
  unfold main_init at h
  split at h
  · exact absurd h (by simp)
  · have hst : st = _ := (Option.some.inj h).symm
    subst hst
    intro w hw
    simp at hw

theorem reachable_win_ok (g : Geom) (B : Int → Int) (st : MainState)
    (h : Reachable g B st) : win_ok g st := by
  induction h with
  | init heap sess st hinit => exact main_init_win_ok g B heap sess st hinit
  | step st env input st' _ hstep ih => exact step_win_ok g B env input st st' ih hstep

theorem reachable_run (g : Geom) (B : Int → Int) (evs : List (Int × Env))
    (st st' : MainState) (hr : Reachable g B st) (h : run g B evs st = some st') :
    Reachable g B st' := by
  induction evs generalizing st with
  | nil =>
    unfold run at h
    cases h
    exact hr
  | cons ev evs ih =>
    obtain ⟨input, env⟩ := ev
    unfold run at h
    cases hs : step g B env input st with
    | none => rw [hs] at h; simp at h
    | some m =>
      rw [hs] at h
      exact ih m (Reachable.step st env input m hr hs) h

theorem reachable_run_getD (g : Geom) (B : Int → Int) (evs : List (Int × Env))
    (st : MainState) (hr : Reachable g B st) :
    Reachable g B ((run g B evs st).getD st) := by
  cases h : run g B evs st with
  | none => exact hr
  | some st' => exact reachable_run g B evs st st' hr h

/-! ### The grid loop -/

theorem grid_cells_append (mode : Mode) (n : Nat) (a b : List Nat) :
    grid_cells mode n (a ++ b) = grid_cells mode n a ++ grid_cells mode (n + a.length) b := by
  induction a generalizing n with
  | nil => simp [grid_cells]
  | cons x xs ih =>
    have e : n + 1 + xs.length = n + (xs.length + 1) := by omega
    rw [List.cons_append, grid_cells, grid_cells, ih (n + 1), List.length_cons, e,
      List.cons_append]

theorem grid_cells_getElem? (mode : Mode) (n : Nat) (bs : List Nat) (k : Nat)
    (hk : k < bs.length) :
    (grid_cells mode n bs)[k]? = some (grid_cell mode (n + k) (bs.getD k 0)) := by
  induction bs generalizing n k with
  | nil => simp at hk
  | cons x xs ih =>
    cases k with
    | zero => simp [grid_cells]
    | succ j =>
      simp only [List.length_cons, Nat.add_lt_add_iff_right] at hk
      simp only [grid_cells, List.getElem?_cons_succ, List.getD_cons_succ]
      rw [ih (n + 1) j hk]
      have e : n + 1 + j = n + (j + 1) := by omega
      rw [e]

theorem to_int_small (x : Int) (h0 : 0 ≤ x) (h1 : x < 2147483648) : to_int x = x := by
  unfold to_int u32
  split <;> omega

theorem num_width_bounds (mode : Mode) :
    3 ≤ DATA_NUM_WIDTH.getD (mode.toNat - 2) 0 ∧ DATA_NUM_WIDTH.getD (mode.toNat - 2) 0 ≤ 5 := by
  cases mode <;> decide

theorem auto_stop_calls (g : Geom) (B : Int → Int) (st : MainState) :
    grid_calls (auto_stop g B st) = grid_calls st := rfl

/-- After the wrap the cursor is the grid position of the next byte. -/
theorem grid_wrap_cursor (st : MainState) (n : Nat) (_hrow : 0 ≤ st.cursor_row)
    (hcol0 : 0 ≤ st.cursor_col) (hcol : st.cursor_col ≤ 16)
    (hn : 16 * st.cursor_row + st.cursor_col = n) :
    (grid_wrap st).cursor_row = ((n / 16 : Nat) : Int) ∧
    (grid_wrap st).cursor_col = ((n % 16 : Nat) : Int) ∧
    (grid_wrap st).data_win = st.data_win ∧ (grid_wrap st).sess = st.sess := by
  unfold grid_wrap
  split
  · refine ⟨?_, ?_, rfl, rfl⟩
    · show st.cursor_row + 1 = _
      omega
    · show (0 : Int) = _
      omega
  · refine ⟨?_, ?_, rfl, rfl⟩ <;> omega

/-- The grid loop on a chunk, from the cursor reached after `n` bytes: the
bytes that still fit are drawn at their grid cells, in order; if all fit the
cursor is the one reached after `n + bs.length` bytes and monitoring is as
before, otherwise monitoring is off. -/
theorem grid_loop_spec (g : Geom) (B : Int → Int) (bs : List Nat) :
    ∀ (st : MainState) (n : Nat) (w : WINDOW), st.data_win = some w →
      0 ≤ st.cursor_row → 0 ≤ st.cursor_col → st.cursor_col ≤ 16 →
      16 * st.cursor_row + st.cursor_col = n → n ≤ grid_cap g →
      (grid_loop g B bs st).sess.global_mode = st.sess.global_mode ∧
      (grid_loop g B bs st).sess.global_fd = st.sess.global_fd ∧
      (grid_loop g B bs st).data_win.isSome = true ∧
      grid_calls (grid_loop g B bs st) =
        w.out ++ grid_cells st.sess.global_mode n (bs.take (grid_cap g - n)) ∧
      (n + bs.length ≤ grid_cap g →
        (grid_loop g B bs st).sess.global_monitoring = st.sess.global_monitoring ∧
        0 ≤ (grid_loop g B bs st).cursor_row ∧ 0 ≤ (grid_loop g B bs st).cursor_col ∧
        (grid_loop g B bs st).cursor_col ≤ 16 ∧
        16 * (grid_loop g B bs st).cursor_row + (grid_loop g B bs st).cursor_col
          = ((n + bs.length : Nat) : Int)) ∧
      (grid_cap g < n + bs.length →
        (grid_loop g B bs st).sess.global_monitoring = false) := by
  induction bs with
  | nil =>
    intro st n w hw hrow hcol0 hcol hn hle
    unfold grid_loop
    refine ⟨rfl, rfl, by rw [hw]; rfl, ?_, ?_, ?_⟩
    · simp [grid_calls, hw, grid_cells]
    · intro _
      exact ⟨rfl, hrow, hcol0, hcol, by simpa using hn⟩
    · intro h
      have hc : grid_cap g < n := by simpa using h
      omega
  | cons b bs ih =>
    intro st n w hw hrow hcol0 hcol hn hle
    obtain ⟨hr, hc, hwin, hsess⟩ := grid_wrap_cursor st n hrow hcol0 hcol hn
    unfold grid_loop
    by_cases hstop : (grid_wrap st).cursor_row ≥ DATA_ROWS g
    · rw [if_pos hstop]
      have hcap : grid_cap g ≤ n := by
        rw [hr] at hstop
        unfold grid_cap
        omega
      have hz : grid_cap g - n = 0 := by omega
      refine ⟨?_, ?_, ?_, ?_, ?_, ?_⟩
      · rw [auto_stop_mode, hsess]
      · rw [auto_stop_fd, hsess]
      · show (grid_wrap st).data_win.isSome = true
        rw [hwin, hw]; rfl
      · rw [auto_stop_calls, hz]
        simp [grid_calls, hwin, hw, grid_cells]
      · intro h
        simp only [List.length_cons] at h
        omega
      · intro _
        exact auto_stop_monitoring g B _
    · rw [if_neg hstop]
      have hlt : n < grid_cap g := by
        rw [hr] at hstop
        unfold grid_cap
        omega
      have hwb := num_width_bounds st.sess.global_mode
      have hx : to_int ((grid_wrap st).cursor_col *
          DATA_NUM_WIDTH.getD ((grid_wrap st).sess.global_mode.toNat - 2) 0 + 2) =
          ((n % 16 : Nat) : Int) * DATA_NUM_WIDTH.getD (st.sess.global_mode.toNat - 2) 0 + 2 := by
        rw [hc, hsess]
        apply to_int_small
        · have : (0 : Int) ≤ ((n % 16 : Nat) : Int) *
              DATA_NUM_WIDTH.getD (st.sess.global_mode.toNat - 2) 0 :=
            Int.mul_nonneg (by omega) (by omega)
          omega
        · have : ((n % 16 : Nat) : Int) *
              DATA_NUM_WIDTH.getD (st.sess.global_mode.toNat - 2) 0 ≤ 15 * 5 :=
            Int.mul_le_mul (by omega) hwb.2 (by omega) (by omega)
          omega
      have hdw : (grid_draw b (grid_wrap st)).data_win =
          some { w with
            out := w.out ++ [grid_cell st.sess.global_mode n b],
            shown :=
              if wmove_ok w (grid_cell st.sess.global_mode n b).1
                  (grid_cell st.sess.global_mode n b).2.1
              then w.shown ++ [grid_cell st.sess.global_mode n b] else w.shown } := by
        unfold grid_draw
        dsimp only
        rw [hx, hwin, hw, hr, hsess]
        rfl
      have hsd : (grid_draw b (grid_wrap st)).sess = st.sess := hsess
      have hrd : (grid_draw b (grid_wrap st)).cursor_row = ((n / 16 : Nat) : Int) := hr
      have hcd : (grid_draw b (grid_wrap st)).cursor_col = ((n % 16 : Nat) : Int) + 1 := by
        show (grid_wrap st).cursor_col + 1 = _
        rw [hc]
      obtain ⟨i1, i2, i3, i4, i5, i6⟩ := ih (grid_draw b (grid_wrap st)) (n + 1) _ hdw
        (by rw [hrd]; omega) (by rw [hcd]; omega) (by rw [hcd]; omega)
        (by rw [hrd, hcd]; omega) (by omega)
      rw [hsd] at i1 i2 i4 i5
      refine ⟨i1, i2, i3, ?_, ?_, ?_⟩
      · rw [i4]
        have ht : grid_cap g - n = (grid_cap g - (n + 1)) + 1 := by omega
        rw [ht, List.take_succ_cons]
        simp only [grid_cells, List.append_assoc, List.singleton_append]
      · intro h
        simp only [List.length_cons] at h
        have := i5 (by omega)
        refine ⟨this.1, this.2.1, this.2.2.1, this.2.2.2.1, ?_⟩
        rw [this.2.2.2.2]
        simp only [List.length_cons]
        omega
      · intro h
        simp only [List.length_cons] at h
        exact i6 (by omega)

theorem render_grid (g : Geom) (B : Int → Int) (env : Env) (bs : List Nat)
    (st : MainState) (h : is_grid st.sess.global_mode) :
    render g B env bs st = grid_loop g B bs st := by
  unfold render
  rcases h with h | h | h <;> rw [h]

theorem step_ERR (g : Geom) (B : Int → Int) (env : Env) (st : MainState) :
    step g B env ERR st = some (monitor g B env st) := by
  have hk : key_switch g B env ERR st = some st := by
    unfold key_switch
    rw [if_neg (by decide), if_neg (by decide), if_neg (by decide), if_neg (by decide),
      if_neg (by decide), if_neg (by decide), if_neg (by decide), if_neg (by decide),
      if_neg (by decide), if_pos rfl]
  unfold step
  rw [hk]
  rfl

theorem run_idle (g : Geom) (B : Int → Int) (envs : List Env) (st : MainState) :
    run g B (idle envs) st = some (envs.foldl (fun s e => monitor g B e s) st) := by
  induction envs generalizing st with
  | nil => rfl
  | cons e es ih =>
    show run g B ((ERR, e) :: idle es) st = _
    unfold run
    rw [step_ERR, Option.some_bind, ih]
    rfl

theorem newwin_some (nlines ncols y x : Int) (h1 : 0 ≤ nlines) (h2 : 0 ≤ ncols)
    (h3 : 0 ≤ y) (h4 : 0 ≤ x) :
    newwin nlines ncols y x =
      some { nlines := nlines, ncols := ncols, begin_y := y, begin_x := x, out := [],
             shown := [] } := by
  unfold newwin
  rw [if_neg (by omega)]

theorem win_size_nonneg (m : Mode) : 0 ≤ DATA_WIN_SIZE.getD (m.toNat - 2) 0 := by
  cases m <;> decide

/-- One iteration without a key, whose read delivers `bs`, keeps the grid
invariant, the bytes received now being `pre ++ bs`; a surface that exists
stays. -/
theorem monitor_grid_inv (g : Geom) (B : Int → Int) (env : Env) (m : Mode)
    (base : List (Int × Int × String))
    (pre bs : List Nat) (st : MainState) (hm : is_grid m) (hrows : 0 < DATA_ROWS g)
    (hsurf : st.data_win.isSome = true ∨
      ¬ u32 g.COLS ≤ DATA_WIN_SIZE.getD (m.toNat - 2) 0)
    (hread : os_read env = some bs) (hinv : grid_inv g m base pre st) :
    (st.data_win.isSome = true → (monitor g B env st).data_win.isSome = true) ∧
    grid_inv g m base (pre ++ bs) (monitor g B env st) := by
  obtain ⟨hmode, hfd, hcalls, hon, hoff⟩ := hinv
  unfold monitor
  by_cases hmon : st.sess.global_monitoring = true
  · obtain ⟨hrow, hcol0, hcol, hn, hle⟩ := hon hmon
    rw [if_neg (by rw [hmon]; decide), if_neg (by omega), hread]
    dsimp only
    by_cases hlen : bs.length = 0
    · rw [if_pos hlen]
      have hbs : bs = [] := List.length_eq_zero.mp hlen
      subst hbs
      rw [List.append_nil]
      exact ⟨id, hmode, hfd, hcalls, hon, hoff⟩
    · rw [if_neg hlen]
      have hgm : is_grid st.sess.global_mode := by rw [hmode]; exact hm
      have hnotgraph : ¬ (st.sess.global_mode = .GRAPH ∧
          u32 (g.ROWS - DATA_START_ROW) < MIN_GRAPH_ROWS) := by
        intro h
        rw [h.1] at hgm
        simp [is_grid] at hgm
      have hhex : Mode.HEX.toNat ≤ st.sess.global_mode.toNat := by
        rcases hgm with h | h | h <;> rw [h] <;> decide
      -- the state on which the grid loop runs, and the calls already recorded
      have key : ∃ (t : MainState) (w : WINDOW), on_chunk g B env bs st = grid_loop g B bs t ∧
          t.data_win = some w ∧ w.out = grid_calls st ∧ t.sess.global_mode = m ∧
          t.sess.global_fd = st.sess.global_fd ∧
          t.sess.global_monitoring = true ∧
          t.cursor_row = st.cursor_row ∧ t.cursor_col = st.cursor_col := by
        unfold on_chunk
        rw [if_neg hnotgraph]
        cases hd : st.data_win with
        | none =>
          have hwide : ¬ u32 g.COLS ≤ DATA_WIN_SIZE.getD (m.toNat - 2) 0 := by
            rcases hsurf with h | h
            · rw [hd] at h; simp at h
            · exact h
          rw [if_pos ⟨hhex, rfl⟩, if_neg (by rw [hmode]; exact hwide)]
          have hnw := newwin_some (DATA_ROWS g)
            (DATA_WIN_SIZE.getD (st.sess.global_mode.toNat - 2) 0) DATA_START_ROW
            (to_int (u32 (g.COLS - DATA_WIN_SIZE.getD (st.sess.global_mode.toNat - 2) 0 + 1) / 2))
            (by omega) (win_size_nonneg _) (by decide)
            (by
              have h0 : 0 ≤ u32 (g.COLS -
                  DATA_WIN_SIZE.getD (st.sess.global_mode.toNat - 2) 0 + 1) / 2 := by
                unfold u32; omega
              have h1 : u32 (g.COLS -
                  DATA_WIN_SIZE.getD (st.sess.global_mode.toNat - 2) 0 + 1) / 2
                  < 2147483648 := by
                unfold u32; omega
              rw [to_int_small _ h0 h1]
              exact h0)
          have hcw : (create_data_win g st).data_win = some _ := hnw
          refine ⟨create_data_win g st, _, ?_, hcw, ?_,
            (create_data_win_mode g st).trans hmode,
            (clear_fail_row_globals g st.sess).2.2.2.1,
            ((clear_fail_row_globals g st.sess).2.1).trans hmon, rfl, rfl⟩
          · exact render_grid g B env bs _ (by rw [create_data_win_mode]; exact hgm)
          · simp [grid_calls, hd]
        | some w =>
          rw [if_neg (by simp)]
          refine ⟨st, w, render_grid g B env bs st hgm, hd, ?_, hmode, rfl, hmon, rfl, rfl⟩
          simp [grid_calls, hd]
      obtain ⟨t, w, hchunk, htw, hout, htm, htfd, htmon, htr, htc⟩ := key
      rw [hchunk]
      obtain ⟨s1, s2, s3, s4, s5, s6⟩ := grid_loop_spec g B bs t pre.length w htw
        (by rw [htr]; exact hrow) (by rw [htc]; exact hcol0) (by rw [htc]; exact hcol)
        (by rw [htr, htc]; exact hn) hle
      have htake : (pre ++ bs).take (grid_cap g) = pre ++ bs.take (grid_cap g - pre.length) := by
        rw [List.take_append_eq_append_take, List.take_of_length_le hle]
      have hpre : pre.take (grid_cap g) = pre := List.take_of_length_le hle
      refine ⟨fun _ => s3, by rw [s1, htm], by rw [s2, htfd]; exact hfd, ?_, ?_, ?_⟩
      · rw [s4, htm, hout, hcalls, hpre, htake, grid_cells_append, Nat.zero_add,
          List.append_assoc]
      · intro hon'
        by_cases hfit : pre.length + bs.length ≤ grid_cap g
        · obtain ⟨_, r1, r2, r3, r4⟩ := s5 hfit
          refine ⟨r1, r2, r3, ?_, ?_⟩
          · rw [r4, List.length_append]
          · rw [List.length_append]; exact hfit
        · have := s6 (by omega)
          rw [this] at hon'
          simp at hon'
      · intro hoff'
        by_cases hfit : pre.length + bs.length ≤ grid_cap g
        · have := (s5 hfit).1
          rw [htmon] at this
          rw [this] at hoff'
          simp at hoff'
        · rw [List.length_append]; omega
  · have hmf : st.sess.global_monitoring = false := by simpa using hmon
    rw [if_pos (by rw [hmf]; rfl)]
    have hle := hoff hmf
    refine ⟨id, hmode, hfd, ?_, ?_, ?_⟩
    · rw [hcalls, List.take_append_of_le_length hle]
    · intro h; rw [hmf] at h; simp at h
    · intro _; rw [List.length_append]; omega

theorem fold_grid_inv (g : Geom) (B : Int → Int) (m : Mode) (hm : is_grid m)
    (base : List (Int × Int × String)) (hrows : 0 < DATA_ROWS g) (envs : List Env) :
    ∀ (pre : List Nat) (st : MainState), (∀ e ∈ envs, e.read_res ≠ none) →
      (st.data_win.isSome = true ∨ ¬ u32 g.COLS ≤ DATA_WIN_SIZE.getD (m.toNat - 2) 0) →
      grid_inv g m base pre st →
      grid_inv g m base (pre ++ received envs)
        (envs.foldl (fun s e => monitor g B e s) st) := by
  induction envs with
  | nil =>
    intro pre st _ _ hinv
    simpa [received] using hinv
  | cons e es ih =>
    intro pre st hreads hsurf hinv
    have he : e.read_res ≠ none := hreads e (List.mem_cons_self _ _)
    obtain ⟨bs, hbs⟩ : ∃ bs, os_read e = some bs := by
      unfold os_read
      cases hr : e.read_res with
      | none => exact absurd hr he
      | some b => exact ⟨_, rfl⟩
    obtain ⟨hkeep, h1⟩ := monitor_grid_inv g B e m base pre bs st hm hrows hsurf hbs hinv
    have hsurf' : (monitor g B e st).data_win.isSome = true ∨
        ¬ u32 g.COLS ≤ DATA_WIN_SIZE.getD (m.toNat - 2) 0 := by
      rcases hsurf with h | h
      · exact Or.inl (hkeep h)
      · exact Or.inr h
    have h2 := ih (pre ++ bs) (monitor g B e st)
      (fun e' he' => hreads e' (List.mem_cons_of_mem _ he')) hsurf' h1
    have hrec : received (e :: es) = bs ++ received es := by
      simp [received, hbs]
    rw [hrec, ← List.append_assoc]
    exact h2

/-! ### Grid cells and the surface -/

set_option maxRecDepth 100000

theorem fmt_hhX_mod (b : Nat) : fmt_hhX (b % 256) = fmt_hhX b := by
  unfold fmt_hhX
  rw [Nat.mod_mod]

theorem schar_mod (b : Nat) : schar (b % 256) = schar b := by
  unfold schar
  rw [Nat.mod_mod]

/-- The formats `%2hhX`, `%3hhu`, `%4hhi` print a byte in exactly 2, 3 and 4
characters. -/
theorem grid_fmt_length (b : Nat) :
    (DATA_NUM_FMT.getD 0 (fun _ => "") b).length = 2 ∧
    (DATA_NUM_FMT.getD 1 (fun _ => "") b).length = 3 ∧
    (DATA_NUM_FMT.getD 2 (fun _ => "") b).length = 4 := by
  have key : ∀ c, c < 256 →
      (pad_left 2 (fmt_hhX c)).length = 2 ∧
      (pad_left 3 (toString (c % 256))).length = 3 ∧
      (pad_left 4 (toString (schar c))).length = 4 := by
    decide
  have h := key (b % 256) (Nat.mod_lt _ (by decide))
  rw [fmt_hhX_mod, Nat.mod_mod, schar_mod] at h
  exact h

/-- The column part of the placement holds for every cell of a grid mode: the
text starts at a non-negative column and ends within `DATA_WIN_SIZE`. -/
theorem grid_cell_column (m : Mode) (hm : is_grid m) (k b : Nat) :
    0 ≤ (grid_cell m k b).2.1 ∧
    (grid_cell m k b).2.1 + ((grid_cell m k b).2.2.length : Int)
      ≤ DATA_WIN_SIZE.getD (m.toNat - 2) 0 := by
  obtain ⟨h2, h3, h4⟩ := grid_fmt_length b
  have hk : k % 16 < 16 := Nat.mod_lt _ (by decide)
  rcases hm with h | h | h <;> subst h
  · have e : (grid_cell .HEX k b).2.1 = ((k % 16 : Nat) : Int) * 3 + 2 := rfl
    have l : (grid_cell .HEX k b).2.2 = DATA_NUM_FMT.getD 0 (fun _ => "") b := rfl
    have s : DATA_WIN_SIZE.getD (Mode.HEX.toNat - 2) 0 = 51 := rfl
    rw [e, l, s, h2]
    omega
  · have e : (grid_cell .UINT k b).2.1 = ((k % 16 : Nat) : Int) * 4 + 2 := rfl
    have l : (grid_cell .UINT k b).2.2 = DATA_NUM_FMT.getD 1 (fun _ => "") b := rfl
    have s : DATA_WIN_SIZE.getD (Mode.UINT.toNat - 2) 0 = 67 := rfl
    rw [e, l, s, h3]
    omega
  · have e : (grid_cell .INT k b).2.1 = ((k % 16 : Nat) : Int) * 5 + 2 := rfl
    have l : (grid_cell .INT k b).2.2 = DATA_NUM_FMT.getD 2 (fun _ => "") b := rfl
    have s : DATA_WIN_SIZE.getD (Mode.INT.toNat - 2) 0 = 83 := rfl
    rw [e, l, s, h4]
    omega

/-- The row part: a byte that the loop draws (`k` below the capacity of the
grid) targets a window row from 1 to `DATA_ROWS`, and the bytes of the last
grid row target row `DATA_ROWS` itself. -/
theorem grid_cell_row (g : Geom) (m : Mode) (k b : Nat) (hk : k < grid_cap g) :
    1 ≤ (grid_cell m k b).1 ∧ (grid_cell m k b).1 ≤ DATA_ROWS g ∧
    ((grid_cell m k b).1 = DATA_ROWS g ↔ ((k / 16 : Nat) : Int) = DATA_ROWS g - 1) := by
  have e : (grid_cell m k b).1 = ((k / 16 : Nat) : Int) + 1 := rfl
  rw [e]
  unfold grid_cap at hk
  omega

theorem centre_fits (g : Geom) (len : Nat) (h0 : 0 < len) (h1 : (len : Int) ≤ g.COLS)
    (h2 : g.COLS < 2147483648) :
    0 ≤ centre g len ∧ centre g len < g.COLS ∧ (len : Int) ≤ g.COLS - centre g len := by
  unfold centre to_int u32 u64
  split <;> omega

theorem move_ok_of (g : Geom) (y x : Int) (h1 : 0 ≤ y) (h2 : y < g.ROWS) (h3 : 0 ≤ x)
    (h4 : x < g.COLS) : move_ok g y x = true := by
  simp [move_ok, h1, h2, h3, h4]

theorem clear_fail_row_of (g : Geom) (s : Session) (h : FAIL_MSG_ROW < g.ROWS)
    (hc : 0 < g.COLS) :
    clear_fail_row g s = { s with fail_row := some (blank_row g) } := by
  unfold clear_fail_row
  rw [if_pos (move_ok_of g _ _ (by decide) h (le_refl _) hc)]

/-- A printable text that fits on the error row, printed at its centring
column, changes the error row only. -/
theorem mvprintw_fail_fits (g : Geom) (text : String) (s : Session)
    (hrow : FAIL_MSG_ROW < g.ROWS) (hp : printable text = true) (h0 : 0 < text.length)
    (h1 : (text.length : Int) ≤ g.COLS) (h2 : g.COLS < 2147483648) :
    mvprintw_fail g (centre g text.length) text s =
      { s with fail_row :=
          s.fail_row.map (fun r => overlay r (centre g text.length).toNat text.toList) } := by
  obtain ⟨c0, c1, c2⟩ := centre_fits g text.length h0 h1 h2
  unfold mvprintw_fail
  rw [if_neg (by simp [hp]), if_neg (by simp [move_ok_of g _ _ (by decide) hrow c0 c1]),
    if_pos c2]

theorem print_status_of (g : Geom) (B : Int → Int) (s : Session)
    (h : STATUS_MSG_ROW < g.ROWS) (hc : 0 < g.COLS) :
    print_status g B s = { s with status_row := status_cells g B s } := by
  unfold print_status
  rw [if_neg (by simp [move_ok_of g _ _ (by decide) h (le_refl _) hc])]

theorem printable_append (a b : String) :
    printable (a ++ b) = (printable a && printable b) := by
  unfold printable
  simp [String.toList, List.all_append]

theorem status_main_length_pos (B : Int → Int) (s : Session) :
    0 < (status_main B s ++ status_off s).length := by
  unfold status_main STATUS_MSG
  simp only [List.getD_cons_zero, String.length_append]
  have : ("Device: " : String).length = 8 := by decide
  omega

/-- On a screen that has the status row, a printable status text that fits on
the row is what the row shows, at the centring column. -/
theorem status_cells_fits (g : Geom) (B : Int → Int) (s : Session)
    (hrow : STATUS_MSG_ROW < g.ROWS)
    (hp : printable (status_main B s ++ status_off s) = true)
    (h1 : ((status_main B s ++ status_off s).length : Int) ≤ g.COLS)
    (h2 : g.COLS < 2147483648) :
    status_cells g B s = some (centred_row g (status_main B s ++ status_off s)) := by
  have h0 := status_main_length_pos B s
  obtain ⟨c0, c1, c2⟩ := centre_fits g _ h0 h1 h2
  rw [String.length_append] at c0 c1 c2
  have hpm : printable (status_main B s) = true := by
    rw [printable_append] at hp
    simp only [Bool.and_eq_true] at hp
    exact hp.1
  have hmv := move_ok_of g _ _ (by decide) hrow c0 c1
  unfold status_cells
  rw [if_neg (by simp [hpm])]
  dsimp only
  rw [if_pos hmv, if_pos hmv, if_pos (Or.inl (by rw [String.length_append]; exact c2))]
  unfold centred_row
  rw [String.length_append]

/-- On a screen that has both message rows, when the access failure text is
printable and fits on the error row, `fd_err` leaves it there, centred. -/
theorem fd_err_fail_row (g : Geom) (B : Int → Int) (env : Env) (s : Session)
    (hrow : STATUS_MSG_ROW < g.ROWS) (hp : printable env.strerror = true)
    (h1 : ((FD_FAIL_MSG ++ env.strerror).length : Int) ≤ g.COLS)
    (h2 : g.COLS < 2147483648) :
    (fd_err g B env s).fail_row = some (centred_row g (FD_FAIL_MSG ++ env.strerror)) := by
  have hfrow : FAIL_MSG_ROW < g.ROWS := by
    unfold FAIL_MSG_ROW
    unfold STATUS_MSG_ROW at hrow
    omega
  have h0 : 0 < (FD_FAIL_MSG ++ env.strerror).length := by
    rw [String.length_append]
    have : FD_FAIL_MSG.length = 21 := by decide
    omega
  have hc0 : 0 < g.COLS := by omega
  have hpp : printable (FD_FAIL_MSG ++ env.strerror) = true := by
    rw [printable_append, hp]
    decide
  unfold fd_err
  dsimp only
  rw [print_status_of g B _ hrow hc0, clear_fail_row_of g _ hfrow hc0,
    ← String.length_append, mvprintw_fail_fits g _ _ hfrow hpp h0 h1 h2]
  rfl

/-- On a terminal of 40 columns the status text of a session with a device
(60 characters) does not fit: the centring column is negative, the `mvprintw`
prints nothing, and only ` (off)` reaches the status row, from column 0. -/
theorem status_row_narrow :
    (print_status geom_narrow linux_B
      { init_session geom_narrow linux_B with global_fd_name := "/dev/ttyUSB0" }).status_row =
      some (" (off)".toList ++ List.replicate 34 ' ') := by
  decide

theorem state_after_reachable (g : Geom) (evs : List (Int × Env)) (st : MainState)
    (h : state_after g evs = some st) : Reachable g linux_B st := by
  unfold state_after at h
  cases hm : main_init g linux_B (fun _ => [])
      (try_update_fd g linux_B env_ok (init_session g linux_B) (some "/dev/ttyUSB0")) with
  | none => rw [hm] at h; simp at h
  | some m =>
    rw [hm] at h
    exact reachable_run g linux_B evs m st (Reachable.init _ _ m hm) h

theorem state_after_getD_reachable (g : Geom) (evs : List (Int × Env)) (d : MainState)
    (h : (state_after g evs).isSome = true) :
    Reachable g linux_B ((state_after g evs).getD d) := by
  cases hs : state_after g evs with
  | none => rw [hs] at h; simp at h
  | some st => exact state_after_reachable g evs st hs

/-- In a state that satisfies the surface invariant, the calls that printed
are the recorded calls whose target is a cell of the surface. -/
theorem grid_shown_eq (g : Geom) (st : MainState) (hok : win_ok g st) :
    grid_shown st = (grid_calls st).filter (cell_ok g st.sess.global_mode) := by
  unfold grid_shown grid_calls
  cases hd : st.data_win with
  | none => rfl
  | some w =>
    obtain ⟨_, h2, h3, h4⟩ := hok w hd
    dsimp only
    rw [h4]
    congr 1
    funext c
    unfold wmove_ok cell_ok
    rw [h2, h3]

/-- Of the cells of consecutive bytes, those on a window row below
`DATA_ROWS` are the cells of the bytes before `shown_cap`. -/
theorem filter_grid_cells (g : Geom) (m : Mode) (hm : is_grid m) (l : List Nat) :
    ∀ n, (grid_cells m n l).filter (cell_ok g m) = grid_cells m n (l.take (shown_cap g - n)) := by
  induction l with
  | nil => intro n; simp [grid_cells]
  | cons b bs ih =>
    intro n
    have hk : n % 16 < 16 := Nat.mod_lt _ (by decide)
    have hcol : 0 ≤ (grid_cell m n b).2.1 ∧
        (grid_cell m n b).2.1 < DATA_WIN_SIZE.getD (m.toNat - 2) 0 := by
      rcases hm with h | h | h <;> subst h
      · have e : (grid_cell .HEX n b).2.1 = ((n % 16 : Nat) : Int) * 3 + 2 := rfl
        have s : DATA_WIN_SIZE.getD (Mode.HEX.toNat - 2) 0 = 51 := rfl
        rw [e, s]; omega
      · have e : (grid_cell .UINT n b).2.1 = ((n % 16 : Nat) : Int) * 4 + 2 := rfl
        have s : DATA_WIN_SIZE.getD (Mode.UINT.toNat - 2) 0 = 67 := rfl
        rw [e, s]; omega
      · have e : (grid_cell .INT n b).2.1 = ((n % 16 : Nat) : Int) * 5 + 2 := rfl
        have s : DATA_WIN_SIZE.getD (Mode.INT.toNat - 2) 0 = 83 := rfl
        rw [e, s]; omega
    have hrow : (grid_cell m n b).1 = ((n / 16 : Nat) : Int) + 1 := rfl
    by_cases hlt : n < shown_cap g
    · have hok : cell_ok g m (grid_cell m n b) = true := by
        unfold cell_ok
        unfold shown_cap at hlt
        simp only [Bool.and_eq_true, decide_eq_true_eq]
        refine ⟨⟨⟨?_, ?_⟩, hcol.1⟩, hcol.2⟩ <;> rw [hrow] <;> omega
      have ht : shown_cap g - n = (shown_cap g - (n + 1)) + 1 := by omega
      rw [ht, List.take_succ_cons]
      simp only [grid_cells]
      rw [List.filter_cons_of_pos hok, ih (n + 1)]
    · have hno : ¬ cell_ok g m (grid_cell m n b) = true := by
        unfold cell_ok
        unfold shown_cap at hlt
        simp only [Bool.and_eq_true, decide_eq_true_eq]
        rintro ⟨⟨⟨_, h2⟩, _⟩, _⟩
        rw [hrow] at h2
        omega
      have hz : shown_cap g - n = 0 := by omega
      have hz1 : shown_cap g - (n + 1) = 0 := by omega
      rw [hz, List.take_zero]
      simp only [grid_cells]
      rw [List.filter_cons_of_neg hno, ih (n + 1), hz1, List.take_zero]
      simp [grid_cells]

theorem shown_cap_le (g : Geom) : shown_cap g ≤ grid_cap g := by
  unfold shown_cap grid_cap
  omega

theorem no_win_of_from {a b : MainState} (h : win_from a b) (hb : b.data_win = none) :
    a.data_win = none := by
  cases ha : a.data_win with
  | none => rfl
  | some w =>
    obtain ⟨w0, hw0, _⟩ := h.2 w ha
    rw [hb] at hw0
    simp at hw0

/-- The key switch creates no surface: afterwards there is none, or the one
there was. -/
theorem key_switch_win_cases (g : Geom) (B : Int → Int) (env : Env) (input : Int)
    (st m : MainState) (h : key_switch g B env input st = some m) :
    m.data_win = none ∨ m.data_win = st.data_win := by
  unfold key_switch at h
  split at h
  · exact absurd h (by simp)
  split at h
  · cases h
    rw [toggle_monitor_data_win]
    split
    · exact Or.inl rfl
    · exact Or.inr rfl
  split at h
  · cases h
    exact Or.inl (cycle_mode_data_win g B st)
  split at h
  · cases h
    unfold key_up
    split
    · exact Or.inr rfl
    · exact Or.inr rfl
  split at h
  · cases h
    exact Or.inr rfl
  split at h
  · cases h
    exact Or.inr rfl
  split at h
  · cases h
    exact Or.inr rfl
  split at h
  · cases h
    unfold delete_char
    split
    · exact Or.inr rfl
    · exact Or.inr rfl
  split at h
  · cases h
    exact Or.inr rfl
  split at h
  · cases h
    exact Or.inr rfl
  · cases h
    unfold insert_char
    split
    · exact Or.inr rfl
    · exact Or.inr rfl

/-- The monitoring part creates the surface only on a non-empty read, with
monitoring active on an open device in a grid mode. -/
theorem monitor_creates (g : Geom) (B : Int → Int) (env : Env) (m : MainState)
    (hnone : m.data_win = none) (hsome : (monitor g B env m).data_win.isSome = true) :
    m.sess.global_monitoring = true ∧ 0 ≤ m.sess.global_fd ∧
    ∃ bs, os_read env = some bs ∧ bs ≠ [] ∧ is_grid m.sess.global_mode := by
  have hcontra : ∀ t : MainState, t.data_win = none → t.data_win.isSome = true → False := by
    intro t h1 h2
    rw [h1] at h2
    simp at h2
  unfold monitor at hsome
  by_cases hmon : m.sess.global_monitoring = true
  · rw [if_neg (by simp [hmon])] at hsome
    by_cases hfd : m.sess.global_fd < 0
    · rw [if_pos hfd] at hsome
      exact absurd hsome (fun h => hcontra _ hnone h)
    · rw [if_neg hfd] at hsome
      cases hread : os_read env with
      | none =>
        rw [hread] at hsome
        exact absurd hsome (fun h => hcontra _ hnone h)
      | some bs =>
        rw [hread] at hsome
        dsimp only at hsome
        by_cases hlen : bs.length = 0
        · rw [if_pos hlen] at hsome
          exact absurd hsome (fun h => hcontra _ hnone h)
        · rw [if_neg hlen] at hsome
          refine ⟨hmon, by omega, bs, rfl, ?_, ?_⟩
          · intro h
            rw [h] at hlen
            simp at hlen
          · by_contra hng
            have hno : (on_chunk g B env bs m).data_win = none := by
              unfold on_chunk
              split
              · exact hnone
              · split
                · rename_i hh
                  exact absurd (hex_le_is_grid _ hh.1) hng
                · exact no_win_of_from (render_win g B env bs m) hnone
            exact hcontra _ hno hsome
  · rw [if_pos (by simpa using hmon)] at hsome
    exact absurd hsome (fun h => hcontra _ hnone h)

/-! ## Claims -/

/-- Counterexample for C1: on a terminal of 24 rows and 40 columns (on which
`main` reaches its loop), 12345 is not a supported rate, yet after
`try_set_baud 12345` the error row is blank: the 64 characters of the
bad-baudrate message do not fit, the centring column is negative and curses
prints nothing. -/
theorem bad_baud_message_not_shown :
    (main_init geom_narrow linux_B (fun _ => [])
      (init_session geom_narrow linux_B)).isSome = true ∧
    (12345 : Int) ∉ (BAUD_MAP linux_B).map Prod.fst ∧
    centre geom_narrow BAD_BAUD_MSG.length = -12 ∧
    (try_set_baud geom_narrow linux_B env_ok (init_session geom_narrow linux_B)
      12345).fail_row = some (blank_row geom_narrow) := by
  decide

/-- C1 (amended): for every integer that is not one of the 26 numeric rates of
`BAUD_MAP`, `try_set_baud` leaves the line configuration (both stored
speeds), the device handle, the display name, the monitoring flag (and also
the mode and the set of open descriptors) unchanged; and on a terminal that
has the error row and at least as many columns as the bad-baudrate message
has characters (64), the error row then shows that message, centred, and the
status row is as before. -/
theorem try_set_baud_rejects_unknown (g : Geom) (B : Int → Int) (env : Env)
    (s : Session) (baud : Int) (h : baud ∉ (BAUD_MAP B).map Prod.fst) :
    (try_set_baud g B env s baud).global_config = s.global_config ∧
    (try_set_baud g B env s baud).global_fd = s.global_fd ∧
    (try_set_baud g B env s baud).global_fd_name = s.global_fd_name ∧
    (try_set_baud g B env s baud).global_monitoring = s.global_monitoring ∧
    (try_set_baud g B env s baud).global_mode = s.global_mode ∧
    (try_set_baud g B env s baud).open_fds = s.open_fds ∧
    (FAIL_MSG_ROW < g.ROWS → (BAD_BAUD_MSG.length : Int) ≤ g.COLS →
      g.COLS < 2147483648 →
      (try_set_baud g B env s baud).fail_row = some (centred_row g BAD_BAUD_MSG) ∧
      (try_set_baud g B env s baud).status_row = s.status_row) := by
  have hnone : find_baud B baud = none := by
    unfold find_baud
    rw [List.findIdx?_eq_none_iff]
    intro x hx
    simp only [beq_eq_false_iff_ne, ne_eq]
    intro hxe
    exact h (List.mem_map.mpr ⟨x, hx, hxe⟩)
  have he : try_set_baud g B env s baud = PRINT_ERR g BAD_BAUD_MSG s := by
    unfold try_set_baud
    rw [hnone]
  rw [he]
  obtain ⟨g1, g2, g3, g4, g5, g6⟩ := PRINT_ERR_globals g BAD_BAUD_MSG s
  refine ⟨g1, g4, g5, g2, g3, g6, ?_⟩
  intro hrow hcols hint
  have hlen : (0 : Int) < (BAD_BAUD_MSG.length : Int) := by decide
  unfold PRINT_ERR
  rw [clear_fail_row_of g s hrow (by omega),
    mvprintw_fail_fits g BAD_BAUD_MSG _ hrow (by decide) (by decide) hcols hint]
  exact ⟨rfl, rfl⟩

/-- Witness for C1 (amended): 12345 is not a supported rate; on Linux
constants and a terminal of 24 rows and 100 columns, with a device open as
descriptor 3, the handle is untouched and the error row shows the message
from column 18 on. -/
theorem try_set_baud_rejects_unknown_witness :
    (12345 : Int) ∉ (BAUD_MAP linux_B).map Prod.fst ∧
    (try_set_baud geom_vt linux_B env_ok
        { init_session geom_vt linux_B with
            global_fd := 3, global_fd_name := "/dev/ttyUSB0", open_fds := [3] }
        12345).global_fd = 3 ∧
    (try_set_baud geom_vt linux_B env_ok
        { init_session geom_vt linux_B with
            global_fd := 3, global_fd_name := "/dev/ttyUSB0", open_fds := [3] }
        12345).fail_row =
      some (List.replicate 18 ' ' ++ BAD_BAUD_MSG.toList ++ List.replicate 18 ' ') :=
  have h : (12345 : Int) ∉ (BAUD_MAP linux_B).map Prod.fst := by decide
  ⟨h, (try_set_baud_rejects_unknown geom_vt linux_B env_ok _ 12345 h).2.1,
    ((try_set_baud_rejects_unknown geom_vt linux_B env_ok _ 12345 h).2.2.2.2.2.2
      (by decide) (by decide) (by decide)).1.trans (by decide)⟩

/-- C2: for every numeric rate `r` of `BAUD_MAP` and every prior session
(device open or not, whatever the silent reopen answers), when the platform
constants of the table are pairwise distinct and both speed setters succeed,
after `try_set_baud r` the baud text `print_status` derives from the live
configuration is the decimal rendering of `r`; and on a terminal that has the
status row, when the status text with that baud is printable and fits on the
row, the row shows it, centred. -/
theorem try_set_baud_then_status (g : Geom) (B : Int → Int) (env : Env) (s : Session)
    (r : Int)
    (hr : r ∈ (BAUD_MAP B).map Prod.fst)
    (hB : ((BAUD_MAP B).map Prod.snd).Nodup)
    (hi : env.cfsetispeed_ok = true) (ho : env.cfsetospeed_ok = true) :
    status_baud B (try_set_baud g B env s r).global_config = toString r ∧
    (STATUS_MSG_ROW < g.ROWS → g.COLS < 2147483648 →
      printable (status_line (try_set_baud g B env s r).global_fd_name (toString r)
        (try_set_baud g B env s r).global_mode
        (try_set_baud g B env s r).global_monitoring) = true →
      ((status_line (try_set_baud g B env s r).global_fd_name (toString r)
        (try_set_baud g B env s r).global_mode
        (try_set_baud g B env s r).global_monitoring).length : Int) ≤ g.COLS →
      (try_set_baud g B env s r).status_row =
        some (centred_row g
          (status_line (try_set_baud g B env s r).global_fd_name (toString r)
            (try_set_baud g B env s r).global_mode
            (try_set_baud g B env s r).global_monitoring))) := by
  obtain ⟨e, he, her⟩ := List.mem_map.mp hr
  have hsome : ∃ i, find_baud B r = some i := by
    cases hf : find_baud B r with
    | some i => exact ⟨i, rfl⟩
    | none =>
      unfold find_baud at hf
      rw [List.findIdx?_eq_none_iff] at hf
      have := hf e he
      simp [her] at this
  obtain ⟨i, hf⟩ := hsome
  have key : ∃ t : Session, try_set_baud g B env s r = print_status g B t ∧
      t.global_config.c_ospeed = ((BAUD_MAP B).getD i (0, 0)).2 := by
    unfold try_set_baud
    rw [hf]
    simp only [hi, ho, Bool.not_true, Bool.false_eq_true, if_false]
    refine ⟨_, rfl, ?_⟩
    split
    · rw [try_update_fd_config]
    · rfl
  obtain ⟨t, ht, hc⟩ := key
  have hsb : status_baud B t.global_config = toString r :=
    status_baud_of_found B hB r i hf t.global_config hc
  rw [ht]
  obtain ⟨_, p2, p3, _, p5, _⟩ := print_status_globals g B t
  constructor
  · rw [print_status_config]; exact hsb
  · intro hrow hint
    rw [p2, p3, p5]
    have htext : status_line t.global_fd_name (toString r) t.global_mode t.global_monitoring =
        status_main B t ++ status_off t := by
      simp only [status_line, status_main, status_off, hsb, STATUS_MSG, STATUS_OFF_MSG,
        List.getD_cons_zero, List.getD_cons_succ]
    rw [htext]
    intro hp hfit
    have hc0 : 0 < g.COLS := by
      have := status_main_length_pos B t
      omega
    rw [print_status_of g B t hrow hc0]
    dsimp only
    exact status_cells_fits g B t hrow hp hfit hint

/-- Witness for C2: 9600 on the Linux constants, from the initial session, on
a terminal of 24 rows and 100 columns: the 52 characters of the status text
stand on the status row from column 24 on. -/
theorem try_set_baud_then_status_witness :
    (9600 : Int) ∈ (BAUD_MAP linux_B).map Prod.fst ∧
    ((BAUD_MAP linux_B).map Prod.snd).Nodup ∧
    status_baud linux_B
      (try_set_baud geom_vt linux_B env_ok (init_session geom_vt linux_B) 9600).global_config
      = "9600" ∧
    (try_set_baud geom_vt linux_B env_ok (init_session geom_vt linux_B) 9600).status_row =
      some (List.replicate 24 ' ' ++
        "Device: <none>, baud: 9600, monitor mode: char (off)".toList ++
        List.replicate 24 ' ') :=
  ⟨by decide, by decide,
   (try_set_baud_then_status geom_vt linux_B env_ok (init_session geom_vt linux_B) 9600
      (by decide) (by decide) rfl rfl).1.trans (by decide),
   ((try_set_baud_then_status geom_vt linux_B env_ok (init_session geom_vt linux_B) 9600
      (by decide) (by decide) rfl rfl).2 (by decide) (by decide) (by decide)
      (by decide)).trans (by decide)⟩

/-- Counterexample for C3: the submitted path `/dev/null` is non-empty and
its open attempt fails (the target is not a terminal), yet afterwards the
display name is the placeholder, not the submitted path; and on a terminal of
40 columns the error row is blank, the 51 characters of the message not
fitting on it. -/
theorem try_update_fd_name_not_retained :
    0 < ("/dev/null" : String).length ∧
    env_not_tty.isatty_ok = false ∧
    (try_update_fd geom_vt linux_B env_not_tty (init_session geom_vt linux_B)
      (some "/dev/null")).global_fd_name ≠ "/dev/null" ∧
    (try_update_fd geom_narrow linux_B env_not_tty (init_session geom_narrow linux_B)
      (some "/dev/null")).fail_row = some (blank_row geom_narrow) := by
  decide

/-- C3 (amended): for every non-empty path whose open attempt fails (`open`
fails, or the target is not a terminal, or applying the stored configuration
fails), after `try_update_fd path` the session handle is none, the display
name is the placeholder `<none>`, and the monitoring flag is unchanged; and on
a terminal that has both message rows, when the access failure message with
the system's error text is printable and fits on the error row, the error row
shows it, centred. -/
theorem try_update_fd_failure (g : Geom) (B : Int → Int) (env : Env) (s : Session)
    (p : String) (hp : 0 < p.length)
    (hfail : env.open_ok = false ∨ env.isatty_ok = false ∨ env.tcsetattr_ok = false) :
    (try_update_fd g B env s (some p)).global_fd = -1 ∧
    (try_update_fd g B env s (some p)).global_fd_name = NO_FD_PLACEHOLDER ∧
    (try_update_fd g B env s (some p)).global_monitoring = s.global_monitoring ∧
    (STATUS_MSG_ROW < g.ROWS → printable env.strerror = true →
      ((FD_FAIL_MSG ++ env.strerror).length : Int) ≤ g.COLS → g.COLS < 2147483648 →
      (try_update_fd g B env s (some p)).fail_row =
        some (centred_row g (FD_FAIL_MSG ++ env.strerror))) := by
  have hcond : ∀ t : Session,
      (!(isatty env (os_open env t.open_fds)) || !env.tcsetattr_ok) = true := by
    intro t
    rcases hfail with h | h | h
    · simp [os_open, isatty, h]
    · simp [isatty, h]
    · simp [h]
  have hre : ∀ t : Session, reopen g B env t =
      fd_err g B env { t with global_fd := os_open env t.open_fds,
                              open_fds := if 0 ≤ os_open env t.open_fds
                                then os_open env t.open_fds :: t.open_fds
                                else t.open_fds } := by
    intro t
    unfold reopen
    simp only [hcond t, if_true]
  unfold try_update_fd
  have hlen : ¬ p.length ≤ 0 := by omega
  simp only [hlen, if_false, hre]
  refine ⟨(fd_err_fields g B env _).2.2.2.1, (fd_err_fields g B env _).2.2.2.2.1, ?_, ?_⟩
  · rw [(fd_err_fields g B env _).2.1]
    dsimp only
    split <;> rfl
  · intro hrow hpr hfit hint
    exact fd_err_fail_row g B env _ hrow hpr hfit hint

/-- Witness for C3 (amended): the path `/dev/null`, not a terminal, on a
terminal of 24 rows and 100 columns: the 51 characters of the message stand on
the error row from column 25 on. -/
theorem try_update_fd_failure_witness :
    (try_update_fd geom_vt linux_B env_not_tty (init_session geom_vt linux_B)
      (some "/dev/null")).global_fd = -1 ∧
    (try_update_fd geom_vt linux_B env_not_tty (init_session geom_vt linux_B)
      (some "/dev/null")).global_fd_name = "<none>" ∧
    (try_update_fd geom_vt linux_B env_not_tty (init_session geom_vt linux_B)
      (some "/dev/null")).fail_row =
        some (List.replicate 25 ' ' ++
          "Can't access device: Inappropriate ioctl for device".toList ++
          List.replicate 24 ' ') :=
  have h := try_update_fd_failure geom_vt linux_B env_not_tty (init_session geom_vt linux_B)
    "/dev/null" (by decide) (Or.inr (Or.inl rfl))
  ⟨h.1, h.2.1, (h.2.2.2 (by decide) (by decide) (by decide) (by decide)).trans (by decide)⟩

/-- C4 (the code at the failing input): from the initial session, which holds
no descriptor, submitting the path of a device that is not a terminal opens
descriptor 3,
`isatty` fails, and `fd_err` resets the handle to none without closing:
descriptor 3 stays open although the session handle is none. -/
theorem fd_err_leaks_descriptor :
    no_leak (init_session geom_vt linux_B) ∧
    (try_update_fd geom_vt linux_B env_not_tty (init_session geom_vt linux_B)
      (some "/dev/null")).global_fd = -1 ∧
    (try_update_fd geom_vt linux_B env_not_tty (init_session geom_vt linux_B)
      (some "/dev/null")).open_fds = [3] ∧
    ¬ no_leak (try_update_fd geom_vt linux_B env_not_tty (init_session geom_vt linux_B)
      (some "/dev/null")) := by
  decide

/-- Counterexample for C5: with the focus on the baud field (after Ctrl-D),
Ctrl-W leaves the focus on the baud field; it does not give the device
field. -/
theorem ctrl_w_keeps_baud :
    ((main_init geom_small linux_B (fun _ => []) sess_dev).bind
      (run geom_small linux_B [(_CTRL (chr 'd'), env_ok)])).map (fun t => t.sel)
      = some Selection.BAUD ∧
    ((main_init geom_small linux_B (fun _ => []) sess_dev).bind
      (run geom_small linux_B [(_CTRL (chr 'd'), env_ok), (_CTRL (chr 'w'), env_ok)])).map
        (fun t => t.sel)
      = some Selection.BAUD := by
  decide

/-- C5 (amended): for every current focus, Ctrl-W gives the device field when
the focus is on the send field and leaves the focus where it is otherwise (so
the baud field keeps it); Ctrl-A gives device, Ctrl-S gives send, Ctrl-D gives
baud, whatever the old focus. -/
theorem navigation_keys (g : Geom) (B : Int → Int) (env : Env) (st : MainState) :
    (step g B env (_CTRL (chr 'w')) st).map (fun t => t.sel)
      = some (if st.sel = .SEND then .FD else st.sel) ∧
    (step g B env (_CTRL (chr 'a')) st).map (fun t => t.sel) = some .FD ∧
    (step g B env (_CTRL (chr 's')) st).map (fun t => t.sel) = some .SEND ∧
    (step g B env (_CTRL (chr 'd')) st).map (fun t => t.sel) = some .BAUD := by
  simp only [step_sel]
  refine ⟨?_, ?_, ?_, ?_⟩
  · simp [key_switch, key_up, _CTRL, chr, KEY_UP]
    split <;> simp_all
  · simp [key_switch, _CTRL, chr, KEY_UP, KEY_RIGHT]
  · simp [key_switch, _CTRL, chr, KEY_UP, KEY_RIGHT, KEY_DOWN]
  · simp [key_switch, _CTRL, chr, KEY_UP, KEY_RIGHT, KEY_DOWN, KEY_LEFT]

/-- Counterexample for C6: byte 0x01 is rendered as `<0x1>`, with the single
hexadecimal digit 1, not with the two digits 01. -/
theorem char_render_one_digit :
    char_render 0x01 = "<0x1>" ∧ char_render 0x01 ≠ "<0x01>" ∧
    (char_render 0x01).length = 5 := by
  decide

set_option maxRecDepth 100000

/-- C6 (amended): in char mode every received byte in `0x20 .. 0x7E` is
rendered as that literal character, and every received byte other than
newline outside that range is rendered as `<0x`, the byte's value in
upper-case hexadecimal without a leading zero (one digit below `0x10`, two
digits from `0x10` on), and `>`. -/
theorem char_render_spec (b : Nat) (hb : b < 256) :
    (0x20 ≤ b ∧ b ≤ 0x7E → char_render b = String.singleton (Char.ofNat b)) ∧
    (b ≠ 0x0A ∧ (b < 0x20 ∨ 0x7E < b) →
      char_render b = "<0x" ++ upper_hex b ++ ">") := by
  revert b
  decide

/-- Witness for C6 (amended): 0x41 is rendered as `A`, 0x01 as `<0x1>`, 0xFF as
`<0xFF>`. -/
theorem char_render_spec_witness :
    char_render 0x41 = "A" ∧ char_render 0x01 = "<0x1>" ∧ char_render 0xFF = "<0xFF>" :=
  ⟨((char_render_spec 0x41 (by decide)).1 (by decide)).trans (by decide),
   ((char_render_spec 0x01 (by decide)).2 (by decide)).trans (by decide),
   ((char_render_spec 0xFF (by decide)).2 (by decide)).trans (by decide)⟩

/-- C7: in graph mode, on every terminal with at least `MIN_GRAPH_ROWS` rows
below `DATA_START_ROW` and half-height `h = (DATA_ROWS - 1) / 2` at most 64,
with division and rounding taken exactly (halves away from zero), the marker
row `GRAPH_CENTER - round(b / GRAPH_SCALAR)` is the midpoint row
`DATA_START_ROW + h` for byte 0x00, the top data row `DATA_START_ROW` for
byte 0x7F and the bottom data row `DATA_START_ROW + DATA_ROWS - 1` for byte
0x80; for every byte the marker row lies inside the data region, and the
divisor `h` (hence `GRAPH_SCALAR`) is not zero. -/
theorem graph_marker_rows (g : Geom)
    (hrows : MIN_GRAPH_ROWS ≤ g.ROWS - DATA_START_ROW)
    (hhalf : (DATA_ROWS g - 1).tdiv 2 ≤ 64) :
    graph_row g 0x00 = DATA_START_ROW + (DATA_ROWS g - 1).tdiv 2 ∧
    graph_row g 0x7F = DATA_START_ROW ∧
    graph_row g 0x80 = DATA_START_ROW + DATA_ROWS g - 1 ∧
    (∀ b : Nat, DATA_START_ROW ≤ graph_row g b ∧
      graph_row g b ≤ DATA_START_ROW + DATA_ROWS g - 1) ∧
    (DATA_ROWS g - 1).tdiv 2 ≠ 0 ∧ GRAPH_SCALAR g ≠ 0 := by
  obtain ⟨hD, h2⟩ := data_rows_odd g hrows
  have hrow := fun b => graph_row_eq g b hD (by omega) hhalf
  have hsc : GRAPH_SCALAR g ≠ 0 := by
    unfold GRAPH_SCALAR
    have : ((((DATA_ROWS g - 1).tdiv 2 : Int)) : ℚ) ≠ 0 := by
      have : (DATA_ROWS g - 1).tdiv 2 ≠ 0 := by omega
      exact_mod_cast this
    exact div_ne_zero (by norm_num) this
  generalize (DATA_ROWS g - 1).tdiv 2 = h at *
  have hq2 : (2 : ℚ) ≤ (h : ℚ) := by exact_mod_cast h2
  have hq64 : (h : ℚ) ≤ 64 := by exact_mod_cast hhalf
  refine ⟨?_, ?_, ?_, ?_, by omega, hsc⟩
  · rw [hrow]
    have : schar 0x00 = 0 := by decide
    rw [this]
    have : c_round (((0 : Int) : ℚ) * (h : ℚ) / 128) = 0 := by
      unfold c_round
      norm_num
    rw [this]; omega
  · rw [hrow]
    have : schar 0x7F = 127 := by decide
    rw [this]
    have : c_round (((127 : Int) : ℚ) * (h : ℚ) / 128) = h := by
      unfold c_round
      have hnn : (0 : ℚ) ≤ ((127 : Int) : ℚ) * (h : ℚ) / 128 := by
        push_cast; positivity
      rw [if_pos hnn, Int.floor_eq_iff]
      push_cast
      constructor <;> linarith
    rw [this]; omega
  · rw [hrow]
    have : schar 0x80 = -128 := by decide
    rw [this]
    have : c_round (((-128 : Int) : ℚ) * (h : ℚ) / 128) = -h := by
      unfold c_round
      have hneg : ¬ (0 : ℚ) ≤ ((-128 : Int) : ℚ) * (h : ℚ) / 128 := by
        push_cast; linarith
      rw [if_neg hneg]
      have : ⌊-(((-128 : Int) : ℚ) * (h : ℚ) / 128) + 1 / 2⌋ = h := by
        rw [Int.floor_eq_iff]
        push_cast
        constructor <;> linarith
      rw [this]
    rw [this]; omega
  · intro b
    rw [hrow]
    have hs : -128 ≤ schar b ∧ schar b ≤ 127 := by
      unfold schar; split <;> omega
    have := c_round_scaled_bounds (schar b) h hs.1 hs.2 (by omega)
    unfold DATA_START_ROW
    omega

/-- Witness for C7: a terminal of 40 rows (27 data rows, half-height 13): the
bytes 0x00, 0x7F, 0x80 are marked on rows 25, 12 and 38. -/
theorem graph_marker_rows_witness :
    graph_row { ROWS := 40, COLS := 80 } 0x00 = 25 ∧
    graph_row { ROWS := 40, COLS := 80 } 0x7F = 12 ∧
    graph_row { ROWS := 40, COLS := 80 } 0x80 = 38 :=
  have h := graph_marker_rows { ROWS := 40, COLS := 80 } (by decide) (by decide)
  ⟨h.1.trans (by decide), h.2.1, h.2.2.1.trans (by decide)⟩

/-- Counterexample for C8: received bytes that are not drawn.  In int mode on
a terminal of 24 rows and 80 columns (11 data rows), the first byte received
after the cursor reset takes the too-small exit: no surface is created, no
call is made, monitoring stops.  In hex mode on a terminal of 13 rows and 100
columns (`DATA_ROWS = 1`), bytes 0 .. 15 have `k / 16 = 0 < DATA_ROWS`, and the
16 calls made for them all target window row 1 of a surface of one line:
nothing is printed. -/
theorem grid_bytes_not_drawn :
    DATA_ROWS geom_80 = 11 ∧
    (state_after geom_80 trace_int).map
      (fun t => (t.sess.global_mode, t.sess.global_monitoring, t.cursor_row, t.cursor_col))
      = some (Mode.INT, true, 0, 0) ∧
    (state_after geom_80
        (trace_int ++ idle [{ env_ok with read_res := some [65] }])).map
      (fun t => t.data_win) = some none ∧
    (state_after geom_80
        (trace_int ++ idle [{ env_ok with read_res := some [65] }])).map
      (fun t => grid_shown t) = some [] ∧
    (state_after geom_80
        (trace_int ++ idle [{ env_ok with read_res := some [65] }])).map
      (fun t => t.sess.global_monitoring) = some false ∧
    DATA_ROWS geom_small = 1 ∧
    stopped_state.sess.global_mode = Mode.HEX ∧
    (grid_calls stopped_state).length = 16 ∧
    (grid_calls stopped_state).all (fun c => decide (c.1 = 1)) = true ∧
    stopped_state.data_win.map (fun w => w.nlines) = some 1 ∧
    grid_shown stopped_state = [] := by
  decide

/-- C8 (amended): in a grid mode (hex, uint, int), on a terminal that passes
the width check of the mode (more columns than `DATA_WIN_SIZE`), in every
reachable state with monitoring active on an open device and the cursor reset
to (0,0), for every splitting of the incoming bytes into read chunks (one read
per loop iteration, no key pressed), the `k`-th byte received (from 0) is
drawn at grid row `k / 16` and grid column `k % 16`: it is the `k`-th value
printed on the surface since the reset, on window cell
`(k / 16 + 1, (k % 16) * DATA_NUM_WIDTH + 2)`, as long as
`k / 16 < DATA_ROWS - 1`.  So bytes 0 .. 15 are drawn on row 0 and byte 16 at
row 1, column 0 when there are at least three data rows. -/
theorem grid_byte_positions (g : Geom) (B : Int → Int) (st : MainState)
    (envs : List Env)
    (hr : Reachable g B st)
    (hgrid : is_grid st.sess.global_mode)
    (hmon : st.sess.global_monitoring = true)
    (hfd : 0 ≤ st.sess.global_fd)
    (hrow : st.cursor_row = 0) (hcol : st.cursor_col = 0)
    (hwide : ¬ u32 g.COLS ≤ DATA_WIN_SIZE.getD (st.sess.global_mode.toNat - 2) 0)
    (hreads : ∀ e ∈ envs, e.read_res ≠ none) :
    ∃ st', run g B (idle envs) st = some st' ∧
      ∀ k, k < (received envs).length → ((k / 16 : Nat) : Int) < DATA_ROWS g - 1 →
        (grid_shown st')[(grid_shown st).length + k]? = some
          (((k / 16 : Nat) : Int) + 1,
           ((k % 16 : Nat) : Int) * DATA_NUM_WIDTH.getD (st.sess.global_mode.toNat - 2) 0 + 2,
           DATA_NUM_FMT.getD (st.sess.global_mode.toNat - 2) (fun _ => "")
             ((received envs).getD k 0)) := by
  refine ⟨_, run_idle g B envs st, ?_⟩
  intro k hk hkrow
  have hrows : 0 < DATA_ROWS g := by omega
  have h0 : grid_inv g st.sess.global_mode (grid_calls st) [] st := by
    refine ⟨rfl, hfd, ?_, ?_, ?_⟩
    · simp [grid_cells]
    · intro _
      rw [hrow, hcol]
      exact ⟨le_refl _, le_refl _, by omega, by simp, Nat.zero_le _⟩
    · intro h; rw [hmon] at h; simp at h
  have hinv := fold_grid_inv g B st.sess.global_mode hgrid (grid_calls st) hrows envs [] st
    hreads (Or.inr hwide) h0
  rw [List.nil_append] at hinv
  obtain ⟨hmode, _, hcalls, _, _⟩ := hinv
  have hr' : Reachable g B (envs.foldl (fun s e => monitor g B e s) st) :=
    reachable_run g B (idle envs) st _ hr (run_idle g B envs st)
  have hkcap : k < shown_cap g := by
    unfold shown_cap
    omega
  have hklen : k < ((received envs).take (shown_cap g)).length := by
    rw [List.length_take]
    omega
  rw [grid_shown_eq g _ (reachable_win_ok g B _ hr'), hmode, hcalls, List.filter_append,
    ← grid_shown_eq g st (reachable_win_ok g B st hr),
    filter_grid_cells g _ hgrid _ 0, Nat.sub_zero, List.take_take,
    Nat.min_eq_left (shown_cap_le g),
    List.getElem?_append_right (Nat.le_add_right _ _), Nat.add_sub_cancel_left,
    grid_cells_getElem? _ 0 _ k hklen, Nat.zero_add]
  have hget : ((received envs).take (shown_cap g)).getD k 0 = (received envs).getD k 0 := by
    simp only [List.getD_eq_getElem?_getD, List.getElem?_take, hkcap, if_true]
  rw [hget]
  rfl

/-- Witness for C8 (amended): hex mode on a terminal of 24 rows and 100
columns, 17 bytes arriving as 10 and then 7: byte 15 is drawn on row 0, column
15 (window cell (1, 47)) and byte 16 on row 1, column 0 (window cell (2, 2)). -/
theorem grid_byte_positions_witness :
    ∃ st', run geom_vt linux_B (idle two_chunks) lazy_vt = some st' ∧
      (grid_shown st')[15]? = some (1, 47, " F") ∧
      (grid_shown st')[16]? = some (2, 2, "10") :=
  let ⟨st', h1, h2⟩ := grid_byte_positions geom_vt linux_B lazy_vt two_chunks
    (state_after_getD_reachable geom_vt trace_lazy start_state (by decide))
    (by decide) (by decide) (by decide) (by decide) (by decide) (by decide) (by decide)
  ⟨st', h1, (h2 15 (by decide) (by decide)).trans (by decide),
    (h2 16 (by decide) (by decide)).trans (by decide)⟩

/-- Counterexample for C9: both directions of the equivalence fail in
reachable states.  After Ctrl-Z, Ctrl-Z, Ctrl-X with nothing read yet, the
mode is hex and monitoring is active but the surface does not exist.  After 17
more bytes on a terminal with one data row, monitoring has stopped by itself
and the surface exists; and after one byte and then a failed read, monitoring
is off and the surface exists. -/
theorem data_win_iff_fails :
    (Reachable geom_small linux_B lazy_state ∧
      lazy_state.data_win = none ∧
      is_grid lazy_state.sess.global_mode ∧
      lazy_state.sess.global_monitoring = true) ∧
    (Reachable geom_small linux_B stopped_state ∧
      stopped_state.data_win.isSome = true ∧
      is_grid stopped_state.sess.global_mode ∧
      stopped_state.sess.global_monitoring = false) ∧
    (Reachable geom_small linux_B read_error_state ∧
      read_error_state.data_win.isSome = true ∧
      is_grid read_error_state.sess.global_mode ∧
      read_error_state.sess.global_monitoring = false ∧
      read_error_state.sess.global_fd = -1) :=
  ⟨⟨reachable_run_getD _ _ _ _ start_state_reachable, by decide, by decide, by decide⟩,
   ⟨reachable_run_getD _ _ _ _ start_state_reachable, by decide, by decide, by decide⟩,
   ⟨reachable_run_getD _ _ _ _ start_state_reachable, by decide, by decide, by decide,
    by decide⟩⟩

/-- C9 (amended): in every state reachable at a loop-iteration boundary, if
the grid surface exists then the mode is a grid mode and the surface has the
width of that mode.  The key handling of an iteration never creates a
surface (afterwards there is none, or the one there was), and the reading
part creates one only when its read delivers at least one byte while
monitoring is active on an open device in a grid mode.  A Ctrl-X that turns
monitoring off leaves no surface at the next boundary; the key handling of
Ctrl-Z changes the mode and leaves no surface; and whenever a chunk takes the
too-small exit, monitoring is off and no surface exists. -/
theorem data_win_invariant (g : Geom) (B : Int → Int) (st : MainState)
    (hr : Reachable g B st) :
    (∀ w, st.data_win = some w →
      is_grid st.sess.global_mode ∧
      w.ncols = DATA_WIN_SIZE.getD (st.sess.global_mode.toNat - 2) 0) ∧
    (∀ env input m, key_switch g B env input st = some m →
      (m.data_win = none ∨ m.data_win = st.data_win) ∧
      (m.data_win = none → (monitor g B env m).data_win.isSome = true →
        m.sess.global_monitoring = true ∧ 0 ≤ m.sess.global_fd ∧
        is_grid m.sess.global_mode ∧ ∃ bs, os_read env = some bs ∧ bs ≠ [])) ∧
    (∀ env st', st.sess.global_monitoring = true →
      step g B env (_CTRL (chr 'x')) st = some st' →
      st'.data_win = none ∧ st'.sess.global_monitoring = false) ∧
    (∀ env m, key_switch g B env (_CTRL (chr 'z')) st = some m →
      m.data_win = none ∧ m.sess.global_mode = next_mode st.sess.global_mode) ∧
    (∀ env input m bs, key_switch g B env input st = some m → too_small_taken g m →
      on_chunk g B env bs m = too_small g B m ∧
      (too_small g B m).data_win = none ∧
      (too_small g B m).sess.global_monitoring = false) := by
  have hok := reachable_win_ok g B st hr
  refine ⟨fun w hw => ⟨(hok w hw).1, (hok w hw).2.1⟩, ?_, ?_, ?_, ?_⟩
  · intro env input m hk
    refine ⟨key_switch_win_cases g B env input st m hk, ?_⟩
    intro hnone hsome
    obtain ⟨h1, h2, bs, h3, h4, h5⟩ := monitor_creates g B env m hnone hsome
    exact ⟨h1, h2, h5, bs, h3, h4⟩
  · intro env st' hmon hstep
    have hk : key_switch g B env (_CTRL (chr 'x')) st = some (toggle_monitor g B st) := by
      unfold key_switch
      rw [if_neg (by decide), if_pos rfl]
    unfold step at hstep
    rw [hk] at hstep
    have hst := (Option.some.inj hstep).symm
    subst hst
    have hoff : (toggle_monitor g B st).sess.global_monitoring = false := by
      rw [toggle_monitor_monitoring, hmon]
      rfl
    have hnone : (toggle_monitor g B st).data_win = none := by
      rw [toggle_monitor_data_win, hmon]
      rfl
    have hmonitor : monitor g B env (toggle_monitor g B st) = toggle_monitor g B st := by
      unfold monitor
      rw [if_pos (by rw [hoff]; rfl)]
    rw [hmonitor]
    exact ⟨hnone, hoff⟩
  · intro env m hk
    have hk' : key_switch g B env (_CTRL (chr 'z')) st = some (cycle_mode g B st) := by
      unfold key_switch
      rw [if_neg (by decide), if_neg (by decide), if_pos rfl]
    rw [hk'] at hk
    have hst := (Option.some.inj hk).symm
    subst hst
    exact ⟨cycle_mode_data_win g B st, cycle_mode_mode g B st⟩
  · intro env input m bs hk htaken
    have hm := key_switch_win_ok g B env input st m hok hk
    have hchunk : on_chunk g B env bs m = too_small g B m := by
      unfold on_chunk
      rcases htaken with ⟨h1, h2⟩ | ⟨h1, h2, h3⟩
      · rw [if_pos ⟨h1, h2⟩]
      · by_cases hg : m.sess.global_mode = .GRAPH ∧
            u32 (g.ROWS - DATA_START_ROW) < MIN_GRAPH_ROWS
        · rw [if_pos hg]
        · rw [if_neg hg, if_pos ⟨h1, h2⟩, if_pos h3]
    have hnone : m.data_win = none := by
      rcases htaken with ⟨h1, _⟩ | ⟨_, h2, _⟩
      · cases hd : m.data_win with
        | none => rfl
        | some w =>
          have := (hm w hd).1
          rw [h1] at this
          simp [is_grid] at this
      · simpa using h2
    exact ⟨hchunk, hnone, too_small_monitoring g B m⟩

/-- Witness for C9 (amended): in the state after Ctrl-Z, Ctrl-Z, Ctrl-X
(monitoring active in hex mode), a further Ctrl-X leaves no surface and
monitoring off. -/
theorem data_win_invariant_witness :
    Reachable geom_small linux_B lazy_state ∧
    lazy_state.sess.global_monitoring = true ∧
    ∀ st', step geom_small linux_B env_ok (_CTRL (chr 'x')) lazy_state = some st' →
      st'.data_win = none ∧ st'.sess.global_monitoring = false :=
  have hr : Reachable geom_small linux_B lazy_state :=
    reachable_run_getD _ _ _ _ start_state_reachable
  ⟨hr, by decide,
   fun st' => (data_win_invariant geom_small linux_B lazy_state hr).2.2.1 env_ok st' (by decide)⟩

/-- C10: in every reachable state no field's length exceeds its maximum, and
for every key code reaching the insert branch the key changes the focused
field exactly when it is printable ASCII (0x20 .. 0x7E) and the field's length
is below its precomputed maximum: then the character is appended (and the
buffer terminated after it), the length grows by one and the other fields are
untouched; otherwise the buffer and the length of every field are unchanged.
In both cases no length exceeds its maximum afterwards. -/
theorem insert_key_effect (g : Geom) (B : Int → Int) (st : MainState)
    (hr : Reachable g B st) :
    (∀ i, st.current_len i ≤ max_text_len g i) ∧
    ∀ (env : Env) (input : Int), reaches_insert input → 0 ≤ input →
      ∃ st', step g B env input st = some st' ∧
        ((0x20 ≤ input ∧ input ≤ 0x7E ∧
            st.current_len st.sel < max_text_len g st.sel) →
          st'.current_len st.sel = st.current_len st.sel + 1 ∧
          field_content st' st.sel = field_content st st.sel ++ [input.toNat] ∧
          (st'.text st.sel).getD (st.current_len st.sel + 1) 1 = 0 ∧
          ∀ i, i ≠ st.sel →
            st'.current_len i = st.current_len i ∧ st'.text i = st.text i) ∧
        (¬ (0x20 ≤ input ∧ input ≤ 0x7E ∧
            st.current_len st.sel < max_text_len g st.sel) →
          st'.current_len = st.current_len ∧ st'.text = st.text) ∧
        (∀ i, st'.current_len i ≤ max_text_len g i) := by
  have hok := reachable_editor_ok g B st hr
  refine ⟨fun i => (hok i).1, ?_⟩
  intro env input hins hkey
  have hstep : step g B env input st = some (monitor g B env (insert_char g input st)) := by
    unfold step
    rw [key_switch_insert g B env input st hins]
    rfl
  refine ⟨_, hstep, ?_, ?_, ?_⟩
  · intro hp
    have hg := (insert_guard_iff g input st (hok st.sel).1 hins hkey).mpr hp
    obtain ⟨_, ht, hl⟩ := monitor_editor g B env (insert_char g input st)
    have hmax := max_text_len_lt g st.sel
    have hbuf := (hok st.sel).2
    have hmod : (st.current_len st.sel + 1) % 4294967296 = st.current_len st.sel + 1 := by
      omega
    have hbyte : (input % 256).toNat = input.toNat := by omega
    unfold field_content
    rw [ht, hl]
    unfold insert_char
    rw [if_neg hg]
    dsimp only
    simp only [Function.update_same, hmod, hbyte]
    refine ⟨trivial, ?_, ?_, ?_⟩
    · exact take_set_set _ _ _ _ (by omega)
    · exact getD_set_self _ _ _ _ (by rw [List.length_set]; omega)
    · intro i hi
      simp only [Function.update_noteq hi, and_self]
  · intro hp
    have hg : st.current_len st.sel = max_text_len g st.sel ∨ input > 0x7F ∨
        input = _CTRL input := by
      by_contra hc
      exact hp ((insert_guard_iff g input st (hok st.sel).1 hins hkey).mp hc)
    obtain ⟨_, ht, hl⟩ := monitor_editor g B env (insert_char g input st)
    rw [ht, hl]
    unfold insert_char
    rw [if_pos hg]
    exact ⟨rfl, rfl⟩
  · intro i
    exact (step_editor_ok g B env input st _ hok hstep i).1

/-- Witness for C10: the key `a` typed into the empty device field of the
start state is appended and the length becomes 1. -/
theorem insert_key_effect_witness :
    ∃ st', step geom_small linux_B env_ok (chr 'a') start_state = some st' ∧
      st'.current_len .FD = 1 ∧ field_content st' .FD = [97] :=
  let ⟨st', h1, h2, _⟩ := (insert_key_effect geom_small linux_B start_state
    start_state_reachable).2 env_ok (chr 'a') (by decide) (by decide)
  ⟨st', h1, (h2 (by decide)).1, (h2 (by decide)).2.1⟩

/-- C11 (the code at the failing input): hex mode on a terminal of 24 rows and
100 columns, 189 bytes arriving in three reads.  The surface is created with
`DATA_ROWS = 11` lines (rows 0 .. 10) and 51 columns; the loop draws 176 bytes
and then stops.  Byte 159, at cursor (9, 15), targets cell (10, 47) and lies
inside the surface; byte 160, at cursor (10, 0), targets row
`cursor_row + 1 = 11`, which is not less than the height of the surface: the
16 calls of the last grid row are the ones outside it.  The column part holds
for every call. -/
theorem grid_last_row_outside :
    DATA_ROWS geom_vt = 11 ∧
    full_state.data_win.map (fun w => (w.nlines, w.ncols)) = some (11, 51) ∧
    (grid_calls full_state).length = 176 ∧
    full_state.sess.global_monitoring = false ∧
    (grid_calls full_state)[159]? = some (10, 47, "9F") ∧
    (grid_calls full_state)[160]? = some (11, 2, "A0") ∧
    (calls_outside full_state).length = 16 ∧
    (calls_outside full_state).head? = some (11, 2, "A0") ∧
    (calls_outside full_state).all (fun c => decide (c.1 = 11)) = true ∧
    (grid_calls full_state).all
      (fun c => decide (0 ≤ c.2.1 ∧ c.2.1 + (c.2.2.length : Int) ≤ 51)) = true := by
  decide

end Tuiser
